import Mathlib

/-!
Verification development for the low-level image wrapper of the vulkano
repository (`src/vulkano/src/image/sys.rs`).

The definitions below are a shallow embedding of `UnsafeImage::new_impl`,
`UnsafeImage::from_raw`, the `Drop` implementation and the memory-requirements
resolution, translated from the Rust source.  Types that the source consumes but
that are defined outside the provided sources (device limits, usage/flag bit
sets, `ImageDimensions::max_mipmaps`, the raw driver call surface) are modelled
from the specification and marked as such in their doc comments.

Machine integers (`u32`, `u64`) are embedded as `Nat`; none of the embedded
arithmetic can overflow a `u32` on the paths that matter (mip counts are at most
`log2` of a dimension plus one, and all other values are compared, masked or
copied, never combined arithmetically).  Rust panics (`unimplemented!`, failing
`debug_assert!`) are modelled by an explicit `panicked` outcome; fallible driver
calls are modelled by explicit result types.
-/

/-- Modelled from the spec: the intended-usage bit set of an image descriptor
(`ImageUsage`, defined in `image/usage.rs`, outside the provided sources).
The spec lists exactly these usage bits: sampled, storage, color-attachment,
depth/stencil-attachment, input-attachment, transient-attachment,
transfer-source, transfer-destination. -/
structure ImageUsage where
  transfer_source : Bool
  transfer_destination : Bool
  sampled : Bool
  storage : Bool
  color_attachment : Bool
  depth_stencil_attachment : Bool
  input_attachment : Bool
  transient_attachment : Bool
deriving DecidableEq, Repr

/-- Modelled from the spec: `ImageUsage::none()` — the all-zero usage bit set. -/
def ImageUsage.none : ImageUsage :=
  ⟨false, false, false, false, false, false, false, false⟩

/-- Modelled from the spec: `ImageUsage::to_usage_bits` (outside the provided
sources) resolves the usage bit set to the underlying Vulkan enumeration bits. -/
def ImageUsage.to_usage_bits (u : ImageUsage) : Nat :=
  (if u.transfer_source then 0x01 else 0) +
  (if u.transfer_destination then 0x02 else 0) +
  (if u.sampled then 0x04 else 0) +
  (if u.storage then 0x08 else 0) +
  (if u.color_attachment then 0x10 else 0) +
  (if u.depth_stencil_attachment then 0x20 else 0) +
  (if u.transient_attachment then 0x40 else 0) +
  (if u.input_attachment then 0x80 else 0)

/-- Modelled from the spec: the image creation flags (`ImageCreateFlags`,
defined outside the provided sources): sparse variants, mutable-format,
cube-compatible and 2D-array-compatible. -/
structure ImageCreateFlags where
  sparse_binding : Bool
  sparse_residency : Bool
  sparse_aliased : Bool
  mutable_format : Bool
  cube_compatible : Bool
  array_2d_compatible : Bool
deriving DecidableEq, Repr

/-- Modelled from the spec: `ImageCreateFlags::none()`. -/
def ImageCreateFlags.none : ImageCreateFlags :=
  ⟨false, false, false, false, false, false⟩

/-- Modelled from the spec: the conversion of the creation flags into the
underlying Vulkan bit mask (`flags.into()` in the source). -/
def ImageCreateFlags.toBits (f : ImageCreateFlags) : Nat :=
  (if f.sparse_binding then 0x01 else 0) +
  (if f.sparse_residency then 0x02 else 0) +
  (if f.sparse_aliased then 0x04 else 0) +
  (if f.mutable_format then 0x08 else 0) +
  (if f.cube_compatible then 0x10 else 0) +
  (if f.array_2d_compatible then 0x20 else 0)

/-- Modelled from the spec: the numeric-format class of a pixel format
(`FormatTy`, defined in `format/mod.rs`, outside the provided sources):
float/compressed, integer (unsigned/signed), depth, stencil, depth+stencil,
and YCbCr. -/
inductive FormatTy where
  | float
  | uint
  | sint
  | depth
  | stencil
  | depthStencil
  | compressed
  | ycbcr
deriving DecidableEq, Repr

/-- Modelled from the spec: a pixel format.  `id` stands for the underlying
Vulkan enumeration value (`format as u32` in the source) and `ty` for the
numeric-format class returned by `Format::ty()`. -/
structure Format where
  id : Nat
  ty : FormatTy
deriving DecidableEq, Repr

/-- Modelled from the spec: the per-format, per-tiling feature bit set
(`FormatFeatures`, defined outside the provided sources).  The spec lists the
features consumed by the validator: sampled-image, storage-image,
color-attachment, depth/stencil-attachment, transfer source and destination. -/
structure FormatFeatures where
  sampled_image : Bool
  storage_image : Bool
  color_attachment : Bool
  depth_stencil_attachment : Bool
  transfer_src : Bool
  transfer_dst : Bool
deriving DecidableEq, Repr

/-- Modelled from the spec: `FormatFeatures::default()` — the empty feature set. -/
def FormatFeatures.default : FormatFeatures :=
  ⟨false, false, false, false, false, false⟩

/-- Modelled from the spec: per-format properties as reported by the capability
facade (`format.properties(physical_device)` in the source): one feature set per
tiling mode. -/
structure FormatProperties where
  linear_tiling_features : FormatFeatures
  optimal_tiling_features : FormatFeatures
deriving DecidableEq, Repr

/-- `ImageDimensions` (declared in `image/mod.rs`, consumed by the source):
1D with width and array layers, 2D with width/height and array layers, 3D with
width/height/depth. -/
inductive ImageDimensions where
  | dim1d (width : Nat) (array_layers : Nat)
  | dim2d (width : Nat) (height : Nat) (array_layers : Nat)
  | dim3d (width : Nat) (height : Nat) (depth : Nat)
deriving DecidableEq, Repr

/-- Fuel-driven floor of the base-2 logarithm (`log2Aux n n = Nat.log2 n`
whenever the fuel is at least the argument); written with structural recursion
so that it reduces inside the kernel. -/
def log2Aux : Nat → Nat → Nat
  | 0, _ => 0
  | fuel + 1, n => if 2 ≤ n then log2Aux fuel (n / 2) + 1 else 0

/-- Modelled from the spec: `ImageDimensions::max_mipmaps` (defined in
`image/mod.rs`, outside the provided sources) — the dimension-derived maximum
mip count, i.e. the length of the full mipmap chain:
`floor(log2(largest dimension)) + 1`. -/
def ImageDimensions.max_mipmaps (d : ImageDimensions) : Nat :=
  match d with
  | .dim1d width _ => log2Aux width width + 1
  | .dim2d width height _ =>
    log2Aux (max width height) (max width height) + 1
  | .dim3d width height depth =>
    log2Aux (max width (max height depth)) (max width (max height depth)) + 1

/-- `MipmapsCount` (declared in `image/mod.rs`, consumed by the source): an
explicit count, the full chain (`Log2`), or a single level (`One`). -/
inductive MipmapsCount where
  | specific (num : Nat)
  | log2
  | one
deriving DecidableEq, Repr

/-- Modelled from the spec: the enabled device extensions consulted by the
source (`device.loaded_extensions()`). -/
structure DeviceExtensions where
  khr_maintenance1 : Bool
  khr_get_memory_requirements2 : Bool
  khr_dedicated_allocation : Bool
deriving DecidableEq, Repr

/-- Modelled from the spec: the enabled device features consulted by the source
(`device.enabled_features()`). -/
structure DeviceFeatures where
  shader_storage_image_multisample : Bool
deriving DecidableEq, Repr

/-- Modelled from the spec: the device-limits snapshot consulted by the source
(`device.physical_device().limits()`): sample-count bit masks segmented by usage
category and numeric-format class, plus the per-type maximum dimensions and
maximum array layers. -/
structure Limits where
  sampled_image_color_sample_counts : Nat
  sampled_image_integer_sample_counts : Nat
  sampled_image_depth_sample_counts : Nat
  sampled_image_stencil_sample_counts : Nat
  storage_image_sample_counts : Nat
  framebuffer_color_sample_counts : Nat
  framebuffer_depth_sample_counts : Nat
  framebuffer_stencil_sample_counts : Nat
  max_image_array_layers : Nat
  max_image_dimension_1d : Nat
  max_image_dimension_2d : Nat
  max_image_dimension_3d : Nat
  max_image_dimension_cube : Nat
deriving DecidableEq, Repr

/-- Modelled from the spec: the read-only capability-query facade over a device
(the source reads limits, loaded extensions, enabled features and per-format
properties through `Arc<Device>`). -/
structure Device where
  limits : Limits
  loaded_extensions : DeviceExtensions
  enabled_features : DeviceFeatures
  format_properties : Format → FormatProperties

/-- `vk::Extent3D`. -/
structure Extent3D where
  width : Nat
  height : Nat
  depth : Nat
deriving DecidableEq, Repr

/-- The image type produced when decoding `ImageDimensions`
(`vk::IMAGE_TYPE_1D/2D/3D` in the source). -/
inductive ImageType where
  | ty1d
  | ty2d
  | ty3d
deriving DecidableEq, Repr

/-- The underlying Vulkan enumeration value of an image type. -/
def ImageType.toVk : ImageType → Nat
  | .ty1d => 0
  | .ty2d => 1
  | .ty3d => 2

/-- `vk::IMAGE_TILING_OPTIMAL`. -/
def VK_IMAGE_TILING_OPTIMAL : Nat := 0

/-- `vk::IMAGE_TILING_LINEAR`. -/
def VK_IMAGE_TILING_LINEAR : Nat := 1

/-- `vk::SAMPLE_COUNT_1_BIT`. -/
def VK_SAMPLE_COUNT_1_BIT : Nat := 1

/-- `vk::IMAGE_LAYOUT_UNDEFINED`. -/
def VK_IMAGE_LAYOUT_UNDEFINED : Nat := 0

/-- `vk::IMAGE_LAYOUT_PREINITIALIZED` (value 8 in the Vulkan enumeration). -/
def VK_IMAGE_LAYOUT_PREINIT : Nat := 8

/-- Modelled from the spec: the out-of-memory condition of a driver call
(`OomError`, defined outside the provided sources). -/
inductive OomError where
  | outOfHostMemory
  | outOfDeviceMemory
deriving DecidableEq, Repr

/-- Modelled from the spec: `DeviceMemoryAllocError` (defined outside the
provided sources); only its out-of-memory wrapping is reachable from this
module. -/
inductive DeviceMemoryAllocError where
  | oom_error (e : OomError)
deriving DecidableEq, Repr

/-- `Range<u32>` as used by `InvalidMipmapsCount`.  The `stop` field stands for
the exclusive upper end of the Rust range (named `end` in Rust, which is a
reserved word here). -/
structure URange where
  start : Nat
  stop : Nat
deriving DecidableEq, Repr

/-- `ImageCreationError` (`sys.rs`, lines 898-918). -/
inductive ImageCreationError where
  | allocError (e : DeviceMemoryAllocError)
  | creationFlagRequirementsNotMet
  | formatNotSupported
  | invalidMipmapsCount (obtained : Nat) (valid_range : URange)
  | unsupportedSamplesCount (obtained : Nat)
  | unsupportedDimensions (dimensions : ImageDimensions)
  | unsupportedUsage
  | shaderStorageImageMultisampleFeatureNotEnabled
deriving DecidableEq, Repr

/-- Outcome of a step of the embedded Rust code: a panic (`unimplemented!` or a
failing `debug_assert!` in a checked build), a typed error (the Rust
`Err`/early-`return` path), or a value. -/
inductive Step (α : Type) where
  | panicked
  | error (e : ImageCreationError)
  | ok (a : α)
deriving DecidableEq, Repr

/-- Sequencing of embedded steps: panics and errors propagate. -/
def Step.bind {α β : Type} : Step α → (α → Step β) → Step β
  | .panicked, _ => .panicked
  | .error e, _ => .error e
  | .ok a, f => f a

/-- `vk::MemoryRequirements` as filled in by the driver. -/
structure VkMemoryRequirements where
  size : Nat
  alignment : Nat
  memoryTypeBits : Nat
deriving DecidableEq, Repr

/-- `vk::MemoryDedicatedRequirementsKHR` as filled in by the driver.  The two
fields are Vulkan booleans (`u32` values, nonzero meaning true). -/
structure VkMemoryDedicatedRequirements where
  prefersDedicatedAllocation : Nat
  requiresDedicatedAllocation : Nat
deriving DecidableEq, Repr

/-- Modelled from the spec: vulkano's `MemoryRequirements` value
(size, alignment, compatible-memory-type bit mask, prefer-dedicated flag);
defined in the memory module, outside the provided sources. -/
structure MemoryRequirements where
  size : Nat
  alignment : Nat
  memory_type_bits : Nat
  prefer_dedicated : Bool
deriving DecidableEq, Repr

/-- Modelled from the spec: `MemoryRequirements::from_vulkan_reqs` (outside the
provided sources) copies the driver-reported values; the dedicated-allocation
hint defaults to false. -/
def MemoryRequirements.from_vulkan_reqs (r : VkMemoryRequirements) : MemoryRequirements :=
  ⟨r.size, r.alignment, r.memoryTypeBits, false⟩

/-- `vk::ImageFormatProperties` as reported by the fallback capability query. -/
structure ImageFormatProperties where
  maxExtent : Extent3D
  maxMipLevels : Nat
  maxArrayLayers : Nat
  sampleCounts : Nat
deriving DecidableEq, Repr

/-- Modelled from the spec: the possible outcomes of
`GetPhysicalDeviceImageFormatProperties` reachable without a panic in the
source (`check_errors` plus the `From<Error>` conversion): success,
format-not-supported, or an out-of-memory condition. -/
inductive ImageFormatPropertiesResult where
  | success (props : ImageFormatProperties)
  | formatNotSupported
  | outOfHostMemory
  | outOfDeviceMemory
deriving DecidableEq, Repr

/-- Modelled from the spec: the possible outcomes of `CreateImage` reachable
without a panic in the source: a fresh native handle or an out-of-memory
condition. -/
inductive CreateImageResult where
  | success (image : Nat)
  | outOfHostMemory
  | outOfDeviceMemory
deriving DecidableEq, Repr

/-- `vk::ImageCreateInfo` as assembled by the source (`sType`, `pNext` and the
pointer plumbing for the queue-family list are represented by the list itself). -/
structure ImageCreateInfo where
  flags : Nat
  imageType : Nat
  format : Nat
  extent : Extent3D
  mipLevels : Nat
  arrayLayers : Nat
  samples : Nat
  tiling : Nat
  usage : Nat
  sharingMode : Nat
  queueFamilyIndices : List Nat
  initialLayout : Nat
deriving DecidableEq, Repr

/-- Modelled from the spec: the native driver call surface consumed by this
module.  Each field gives the driver's response to one call, keyed by that
call's arguments; `get_physical_device_image_format_properties` takes the format
enumeration value, image type, tiling, usage bits, and creation-flag bits. -/
structure DriverEnv where
  get_physical_device_image_format_properties :
    Nat → Nat → Nat → Nat → Nat → ImageFormatPropertiesResult
  create_image : ImageCreateInfo → CreateImageResult
  get_image_memory_requirements2 : Nat → VkMemoryRequirements
  get_memory_dedicated_requirements : Nat → VkMemoryDedicatedRequirements
  get_image_memory_requirements : Nat → VkMemoryRequirements

/-- The `UnsafeImage` handle (`sys.rs`, lines 58-75): the native identity, the
frozen creation parameters, the format feature set resolved at creation, the
owns-lifetime flag (`needs_destruction`) and the preinitialized-layout flag
(named `preinitialized_layout` in the source; shortened here). -/
structure UnsafeImage where
  image : Nat
  device : Device
  usage : ImageUsage
  format : Format
  flags : ImageCreateFlags
  dimensions : ImageDimensions
  samples : Nat
  mipmaps : Nat
  format_features : FormatFeatures
  needs_destruction : Bool
  preinit_layout : Bool

/-- Accessor `UnsafeImage::mipmap_levels` (`sys.rs`, line 683). -/
def UnsafeImage.mipmap_levels (i : UnsafeImage) : Nat := i.mipmaps

/-- Accessor `UnsafeImage::create_flags` (`sys.rs`, line 678). -/
def UnsafeImage.create_flags (i : UnsafeImage) : ImageCreateFlags := i.flags

/-- Accessor `UnsafeImage::key` (`sys.rs`, line 699). -/
def UnsafeImage.key (i : UnsafeImage) : Nat := i.image

/-- The `Drop` implementation (`sys.rs`, lines 865-877): the list of native
`DestroyImage` calls issued when the handle is dropped — none when
`needs_destruction` is false, exactly one (on the stored native identity)
otherwise. -/
def UnsafeImage.dropDestroyCalls (i : UnsafeImage) : List Nat :=
  if !i.needs_destruction then [] else [i.image]

/-- Modelled from the spec: `u32::is_power_of_two`. -/
def is_power_of_two (n : Nat) : Bool :=
  n != 0 && n &&& (n - 1) == 0

/-- The feature set resolved for the requested tiling (`sys.rs`, lines
150-156). -/
def featuresFor (device : Device) (format : Format) (linear_tiling : Bool) :
    FormatFeatures :=
  let format_properties := device.format_properties format
  if linear_tiling then format_properties.linear_tiling_features
  else format_properties.optimal_tiling_features

/-- Usage-versus-format-feature validation (`sys.rs`, lines 149-189): fails with
`FormatNotSupported` when the format supports no feature at all for the tiling,
with `UnsupportedUsage` when a requested usage bit lacks its feature bit (the
transfer checks being gated behind `khr_maintenance1`), and otherwise returns
the resolved feature set. -/
def checkFormatFeatures (device : Device) (usage : ImageUsage) (format : Format)
    (linear_tiling : Bool) : Step FormatFeatures :=
  let features := featuresFor device format linear_tiling
  if features = FormatFeatures.default then
    .error .formatNotSupported
  else if usage.sampled ∧ ¬features.sampled_image then
    .error .unsupportedUsage
  else if usage.storage ∧ ¬features.storage_image then
    .error .unsupportedUsage
  else if usage.color_attachment ∧ ¬features.color_attachment then
    .error .unsupportedUsage
  else if usage.depth_stencil_attachment ∧ ¬features.depth_stencil_attachment then
    .error .unsupportedUsage
  else if usage.input_attachment ∧
      ¬(features.color_attachment ∨ features.depth_stencil_attachment) then
    .error .unsupportedUsage
  else if device.loaded_extensions.khr_maintenance1 ∧
      usage.transfer_source ∧ ¬features.transfer_src then
    .error .unsupportedUsage
  else if device.loaded_extensions.khr_maintenance1 ∧
      usage.transfer_destination ∧ ¬features.transfer_dst then
    .error .unsupportedUsage
  else
    .ok features

/-- Resolution of the mip-count policy (`sys.rs`, lines 219-240): an explicit
count below 1 is immediately fatal, an explicit count above the
dimension-derived maximum is recorded as a deferred error (the second component
of the result), `Log2` resolves to the maximum and `One` to 1.  The
`debug_assert!(max_mipmaps >= 1)` of the source is modelled by the `panicked`
branch, active only in checked builds (`debug_assertions`). -/
def resolveMipmaps (debug_assertions : Bool) (dimensions : ImageDimensions)
    (mipmaps : MipmapsCount) : Step (Nat × Option ImageCreationError) :=
  match mipmaps with
  | .specific num =>
    let max_mipmaps := dimensions.max_mipmaps
    if debug_assertions ∧ ¬(1 ≤ max_mipmaps) then
      .panicked
    else if num < 1 then
      .error (.invalidMipmapsCount num ⟨1, max_mipmaps + 1⟩)
    else if num > max_mipmaps then
      .ok (num, some (.invalidMipmapsCount num ⟨1, max_mipmaps + 1⟩))
    else
      .ok (num, Option.none)
  | .log2 => .ok (dimensions.max_mipmaps, Option.none)
  | .one => .ok (1, Option.none)

/-- Sample-count validation (`sys.rs`, lines 242-358): a count of 0 or a
non-power-of-two count is immediately fatal; otherwise a running
supported-samples mask (starting from all counts up to 64) is narrowed by the
sampled, storage and attachment usages per numeric-format class — a YCbCr
format used as an attachment being immediately fatal with `UnsupportedUsage` —
and a requested count absent from the final mask is recorded as a deferred
error (the returned option). -/
def checkSamples (device : Device) (usage : ImageUsage) (format : Format)
    (num_samples : Nat) : Step (Option ImageCreationError) :=
  if num_samples = 0 then
    .error (.unsupportedSamplesCount num_samples)
  else if ¬is_power_of_two num_samples then
    .error (.unsupportedSamplesCount num_samples)
  else
    let supported_samples : Nat := 0x7f
    let supported_samples :=
      if usage.sampled then
        match format.ty with
        | .float | .compressed =>
          supported_samples &&& device.limits.sampled_image_color_sample_counts
        | .uint | .sint =>
          supported_samples &&& device.limits.sampled_image_integer_sample_counts
        | .depth =>
          supported_samples &&& device.limits.sampled_image_depth_sample_counts
        | .stencil =>
          supported_samples &&& device.limits.sampled_image_stencil_sample_counts
        | .depthStencil =>
          supported_samples &&& device.limits.sampled_image_depth_sample_counts
            &&& device.limits.sampled_image_stencil_sample_counts
        | .ycbcr =>
          supported_samples &&& VK_SAMPLE_COUNT_1_BIT
      else supported_samples
    let supported_samples :=
      if usage.storage then
        supported_samples &&& device.limits.storage_image_sample_counts
      else supported_samples
    if usage.color_attachment ∨ usage.depth_stencil_attachment ∨
        usage.input_attachment ∨ usage.transient_attachment then
      match format.ty with
      | .float | .compressed | .uint | .sint =>
        let supported_samples :=
          supported_samples &&& device.limits.framebuffer_color_sample_counts
        if num_samples &&& supported_samples = 0 then
          .ok (some (.unsupportedSamplesCount num_samples))
        else .ok Option.none
      | .depth =>
        let supported_samples :=
          supported_samples &&& device.limits.framebuffer_depth_sample_counts
        if num_samples &&& supported_samples = 0 then
          .ok (some (.unsupportedSamplesCount num_samples))
        else .ok Option.none
      | .stencil =>
        let supported_samples :=
          supported_samples &&& device.limits.framebuffer_stencil_sample_counts
        if num_samples &&& supported_samples = 0 then
          .ok (some (.unsupportedSamplesCount num_samples))
        else .ok Option.none
      | .depthStencil =>
        let supported_samples :=
          supported_samples &&& device.limits.framebuffer_depth_sample_counts
            &&& device.limits.framebuffer_stencil_sample_counts
        if num_samples &&& supported_samples = 0 then
          .ok (some (.unsupportedSamplesCount num_samples))
        else .ok Option.none
      | .ycbcr =>
        .error .unsupportedUsage
    else
      if num_samples &&& supported_samples = 0 then
        .ok (some (.unsupportedSamplesCount num_samples))
      else .ok Option.none

/-- Decoding the dimensions (`sys.rs`, lines 368-414): any zero
width/height/depth/array-layer value is fatal with `UnsupportedDimensions`;
otherwise the image type, native extent and array-layer count are produced. -/
def decodeDimensions (dimensions : ImageDimensions) :
    Step (ImageType × Extent3D × Nat) :=
  match dimensions with
  | .dim1d width array_layers =>
    if width = 0 ∨ array_layers = 0 then
      .error (.unsupportedDimensions dimensions)
    else .ok (.ty1d, ⟨width, 1, 1⟩, array_layers)
  | .dim2d width height array_layers =>
    if width = 0 ∨ height = 0 ∨ array_layers = 0 then
      .error (.unsupportedDimensions dimensions)
    else .ok (.ty2d, ⟨width, height, 1⟩, array_layers)
  | .dim3d width height depth =>
    if width = 0 ∨ height = 0 ∨ depth = 0 then
      .error (.unsupportedDimensions dimensions)
    else .ok (.ty3d, ⟨width, height, depth⟩, 1)

/-- Creation-flag requirements (`sys.rs`, lines 416-427): cube-compatible
demands a 2D type with equal width and height and at least 6 array layers;
2D-array-compatible demands a 3D type. -/
def checkFlagsRequirements (flags : ImageCreateFlags) (ty : ImageType)
    (extent : Extent3D) (array_layers : Nat) : Step Unit :=
  if flags.cube_compatible ∧
      ¬(ty = ImageType.ty2d ∧ extent.width = extent.height ∧ 6 ≤ array_layers) then
    .error .creationFlagRequirementsNotMet
  else if flags.array_2d_compatible ∧ ¬(ty = ImageType.ty3d) then
    .error .creationFlagRequirementsNotMet
  else
    .ok ()

/-- Dimension-versus-limit checks (`sys.rs`, lines 429-464).  In the source each
excess overwrites `capabilities_error` with
`UnsupportedDimensions { dimensions }`; since every write stores that same
value, the block amounts to: some deferred `UnsupportedDimensions` error
exactly when the array-layer count or a relevant dimension exceeds its device
limit. -/
def checkLimits (device : Device) (flags : ImageCreateFlags)
    (dimensions : ImageDimensions) (ty : ImageType) (extent : Extent3D)
    (array_layers : Nat) : Option ImageCreationError :=
  let dim_excess : Bool :=
    match ty with
    | .ty1d => extent.width > device.limits.max_image_dimension_1d
    | .ty2d =>
      (extent.width > device.limits.max_image_dimension_2d ∨
       extent.height > device.limits.max_image_dimension_2d) ∨
      (flags.cube_compatible ∧
       extent.width > device.limits.max_image_dimension_cube)
    | .ty3d =>
      extent.width > device.limits.max_image_dimension_3d ∨
      extent.height > device.limits.max_image_dimension_3d ∨
      extent.depth > device.limits.max_image_dimension_3d
  if array_layers > device.limits.max_image_array_layers ∨ dim_excess then
    some (.unsupportedDimensions dimensions)
  else Option.none

/-- The capability fallback query (`sys.rs`, lines 470-507): a single
`GetPhysicalDeviceImageFormatProperties` call for (format, image type, tiling,
usage bits, flags = 0).  A format-not-supported failure supersedes the deferred
error; an out-of-memory failure is converted through the error taxonomy; on
success the originally requested extent, mip count, array layers and sample
count are compared against the reported maxima and bit mask — any excess
surfaces the deferred error, otherwise the deferred condition is dropped. -/
def capabilityFallback (env : DriverEnv) (format : Format) (ty : ImageType)
    (linear_tiling : Bool) (usage_bits : Nat) (extent : Extent3D)
    (mipmaps : Nat) (array_layers : Nat) (num_samples : Nat)
    (capabilities_error : ImageCreationError) : Step Unit :=
  match env.get_physical_device_image_format_properties format.id ty.toVk
      (if linear_tiling then VK_IMAGE_TILING_LINEAR
       else VK_IMAGE_TILING_OPTIMAL) usage_bits 0 with
  | .formatNotSupported => .error .formatNotSupported
  | .outOfHostMemory => .error (.allocError (.oom_error .outOfHostMemory))
  | .outOfDeviceMemory => .error (.allocError (.oom_error .outOfDeviceMemory))
  | .success output =>
    if extent.width > output.maxExtent.width ∨
        extent.height > output.maxExtent.height ∨
        extent.depth > output.maxExtent.depth ∨
        mipmaps > output.maxMipLevels ∨
        array_layers > output.maxArrayLayers ∨
        num_samples &&& output.sampleCounts = 0 then
      .error capabilities_error
    else
      .ok ()

/-- The `vk::ImageCreateInfo` record assembled by the source (`sys.rs`, lines
512-536). -/
def mkImageCreateInfo (usage : ImageUsage) (format : Format)
    (flags : ImageCreateFlags) (num_samples : Nat) (mipmaps : Nat)
    (sh_mode : Nat) (sh_indices : List Nat) (linear_tiling : Bool)
    (preinit_layout : Bool) (ty : ImageType) (extent : Extent3D)
    (array_layers : Nat) : ImageCreateInfo :=
  { flags := flags.toBits
    imageType := ty.toVk
    format := format.id
    extent := extent
    mipLevels := mipmaps
    arrayLayers := array_layers
    samples := num_samples
    tiling := if linear_tiling then VK_IMAGE_TILING_LINEAR
              else VK_IMAGE_TILING_OPTIMAL
    usage := usage.to_usage_bits
    sharingMode := sh_mode
    queueFamilyIndices := sh_indices
    initialLayout := if preinit_layout then VK_IMAGE_LAYOUT_PREINIT
                     else VK_IMAGE_LAYOUT_UNDEFINED }

/-- The `CreateImage` driver call (`sys.rs`, lines 538-546): out-of-memory
failures are converted through the error taxonomy. -/
def createImageCall (env : DriverEnv) (infos : ImageCreateInfo) : Step Nat :=
  match env.create_image infos with
  | .success image => .ok image
  | .outOfHostMemory => .error (.allocError (.oom_error .outOfHostMemory))
  | .outOfDeviceMemory => .error (.allocError (.oom_error .outOfDeviceMemory))

/-- The memory-requirements resolution (`sys.rs`, lines 548-590): the extended
query path is used exactly when `khr_get_memory_requirements2` is loaded;
within it, the dedicated-requirements structure is chained exactly when
`khr_dedicated_allocation` is additionally loaded, in which case
`prefer_dedicated` is set from the driver's prefers-dedicated value and the
requires-dedicated value is asserted (checked builds only) to be zero.  The
basic path copies the basic query, leaving `prefer_dedicated` at its false
default.  Both paths assert (checked builds only) a nonzero memory-type mask. -/
def computeMemReqs (device : Device) (env : DriverEnv) (debug_assertions : Bool)
    (image : Nat) : Step MemoryRequirements :=
  if device.loaded_extensions.khr_get_memory_requirements2 then
    let output2 :=
      if device.loaded_extensions.khr_dedicated_allocation then
        some (env.get_memory_dedicated_requirements image)
      else Option.none
    let output := env.get_image_memory_requirements2 image
    if debug_assertions ∧ output.memoryTypeBits = 0 then
      .panicked
    else
      let out := MemoryRequirements.from_vulkan_reqs output
      match output2 with
      | some output2 =>
        if debug_assertions ∧ ¬(output2.requiresDedicatedAllocation = 0) then
          .panicked
        else
          .ok { out with
                prefer_dedicated := output2.prefersDedicatedAllocation != 0 }
      | Option.none => .ok out
  else
    let output := env.get_image_memory_requirements image
    if debug_assertions ∧ output.memoryTypeBits = 0 then
      .panicked
    else
      .ok (MemoryRequirements.from_vulkan_reqs output)

/-- The tail of `UnsafeImage::new_impl` after validation succeeded (`sys.rs`,
lines 510-606): assemble the creation info, invoke `CreateImage`, resolve the
memory requirements, and freeze the creation parameters into the owned handle
(`needs_destruction` is true). -/
def finishCreation (device : Device) (env : DriverEnv) (debug_assertions : Bool)
    (usage : ImageUsage) (format : Format) (flags : ImageCreateFlags)
    (dimensions : ImageDimensions) (num_samples : Nat) (mipmaps : Nat)
    (format_features : FormatFeatures) (sh_mode : Nat) (sh_indices : List Nat)
    (linear_tiling : Bool) (preinit_layout : Bool) (ty : ImageType)
    (extent : Extent3D) (array_layers : Nat) :
    Step (UnsafeImage × MemoryRequirements) :=
  let infos := mkImageCreateInfo usage format flags num_samples mipmaps sh_mode
    sh_indices linear_tiling preinit_layout ty extent array_layers
  Step.bind (createImageCall env infos) fun image =>
  Step.bind (computeMemReqs device env debug_assertions image) fun mem_reqs =>
  Step.ok
    ({ image := image
       device := device
       usage := usage
       format := format
       flags := flags
       dimensions := dimensions
       samples := num_samples
       mipmaps := mipmaps
       format_features := format_features
       needs_destruction := true
       preinit_layout := preinit_layout }, mem_reqs)

/-- `UnsafeImage::new_impl` (`sys.rs`, lines 123-607).  The stages appear in
source order: the `unimplemented!` panic on sparse/mutable-format flags, the
format-feature and usage checks, the all-zero-usage and transient-attachment
rules, mip-count resolution, sample-count validation, the
multisampled-storage feature gate, dimension decoding, creation-flag
requirements, the dimension-versus-limit checks, the single-slot deferred
error (`capabilities_error`, last write winning), the capability fallback
query when a deferred error was recorded, and finally the creation tail. -/
def new_impl (device : Device) (env : DriverEnv) (debug_assertions : Bool)
    (usage : ImageUsage) (format : Format) (flags : ImageCreateFlags)
    (dimensions : ImageDimensions) (num_samples : Nat) (mipmaps : MipmapsCount)
    (sh_mode : Nat) (sh_indices : List Nat) (linear_tiling : Bool)
    (preinit_layout : Bool) : Step (UnsafeImage × MemoryRequirements) :=
  if flags.sparse_binding ∨ flags.sparse_residency ∨ flags.sparse_aliased ∨
      flags.mutable_format then
    Step.panicked
  else
    Step.bind (checkFormatFeatures device usage format linear_tiling)
      fun format_features =>
    if usage = ImageUsage.none then
      Step.error .unsupportedUsage
    else if usage.transient_attachment ∧
        ¬({ usage with
            transient_attachment := false
            color_attachment := false
            depth_stencil_attachment := false
            input_attachment := false } = ImageUsage.none) then
      Step.error .unsupportedUsage
    else
    Step.bind (resolveMipmaps debug_assertions dimensions mipmaps)
      fun resolved =>
    let mipmapsN := resolved.1
    let mips_deferred := resolved.2
    Step.bind (checkSamples device usage format num_samples)
      fun samples_deferred =>
    if usage.storage ∧ num_samples > 1 ∧
        ¬device.enabled_features.shader_storage_image_multisample then
      Step.error .shaderStorageImageMultisampleFeatureNotEnabled
    else
    Step.bind (decodeDimensions dimensions) fun decoded =>
    let ty := decoded.1
    let extent := decoded.2.1
    let array_layers := decoded.2.2
    Step.bind (checkFlagsRequirements flags ty extent array_layers) fun _ =>
    let limits_deferred := checkLimits device flags dimensions ty extent
      array_layers
    let capabilities_error :=
      (limits_deferred.orElse fun _ =>
        samples_deferred.orElse fun _ => mips_deferred)
    let usage_bits := usage.to_usage_bits
    Step.bind
      (match capabilities_error with
       | some err =>
         capabilityFallback env format ty linear_tiling usage_bits extent
           mipmapsN array_layers num_samples err
       | Option.none => Step.ok ())
      fun _ =>
    finishCreation device env debug_assertions usage format flags dimensions
      num_samples mipmapsN format_features sh_mode sh_indices linear_tiling
      preinit_layout ty extent array_layers

/-- `UnsafeImage::from_raw` (`sys.rs`, lines 612-639): wraps a pre-existing
native handle; the feature set recorded is always the format's optimal-tiling
features, `needs_destruction` is false and the preinitialized-layout flag is
always false. -/
def from_raw (device : Device) (handle : Nat) (usage : ImageUsage)
    (format : Format) (flags : ImageCreateFlags)
    (dimensions : ImageDimensions) (samples : Nat) (mipmaps : Nat) :
    UnsafeImage :=
  let format_properties := device.format_properties format
  { image := handle
    device := device
    usage := usage
    format := format
    flags := flags
    dimensions := dimensions
    samples := samples
    mipmaps := mipmaps
    format_features := format_properties.optimal_tiling_features
    needs_destruction := false
    preinit_layout := false }

/-! ### Concrete devices, formats and driver environments used as witnesses -/

/-- A feature set with every feature bit set. -/
def featuresAll : FormatFeatures := ⟨true, true, true, true, true, true⟩

/-- A generous device-limits snapshot: every sample-count mask full, dimensions
up to 4096 (2048 for 3D) and 256 array layers. -/
def limitsGood : Limits :=
  { sampled_image_color_sample_counts := 0x7f
    sampled_image_integer_sample_counts := 0x7f
    sampled_image_depth_sample_counts := 0x7f
    sampled_image_stencil_sample_counts := 0x7f
    storage_image_sample_counts := 0x7f
    framebuffer_color_sample_counts := 0x7f
    framebuffer_depth_sample_counts := 0x7f
    framebuffer_stencil_sample_counts := 0x7f
    max_image_array_layers := 256
    max_image_dimension_1d := 4096
    max_image_dimension_2d := 4096
    max_image_dimension_3d := 2048
    max_image_dimension_cube := 4096 }

/-- A device with generous limits, no optional extension loaded, the
multisampled-storage feature disabled, and every format fully featured under
both tilings. -/
def deviceA : Device :=
  { limits := limitsGood
    loaded_extensions := ⟨false, false, false⟩
    enabled_features := ⟨false⟩
    format_properties := fun _ => ⟨featuresAll, featuresAll⟩ }

/-- Like `deviceA` but with `khr_get_memory_requirements2` and
`khr_dedicated_allocation` loaded. -/
def deviceExt : Device :=
  { deviceA with loaded_extensions := ⟨false, true, true⟩ }

/-- A device on which no format supports any feature under either tiling. -/
def deviceNoFeat : Device :=
  { deviceA with
    format_properties := fun _ => ⟨FormatFeatures.default, FormatFeatures.default⟩ }

/-- Like `deviceA` but with `khr_maintenance1` loaded, so the transfer-usage
feature checks are active. -/
def deviceM1 : Device :=
  { deviceA with loaded_extensions := ⟨true, false, false⟩ }

/-- A float-class format standing for `R8G8B8A8Unorm` (Vulkan value 37). -/
def fmtRGBA : Format := ⟨37, .float⟩

/-- Usage with only the sampled bit. -/
def usageSampled : ImageUsage := { ImageUsage.none with sampled := true }

/-- A driver that reports generous image-format properties, creates handle 42,
and reports 1024-byte/256-aligned requirements with memory-type mask 7 and no
dedicated-allocation preference. -/
def envA : DriverEnv :=
  { get_physical_device_image_format_properties := fun _ _ _ _ _ =>
      .success ⟨⟨4096, 4096, 4096⟩, 13, 256, 0x7f⟩
    create_image := fun _ => .success 42
    get_image_memory_requirements2 := fun _ => ⟨1024, 256, 7⟩
    get_memory_dedicated_requirements := fun _ => ⟨0, 0⟩
    get_image_memory_requirements := fun _ => ⟨1024, 256, 7⟩ }

/-- Like `envA` but the image-format-properties query fails with
format-not-supported. -/
def envFNS : DriverEnv :=
  { envA with
    get_physical_device_image_format_properties := fun _ _ _ _ _ =>
      .formatNotSupported }

/-- Like `envA` but the dedicated-requirements answer prefers a dedicated
allocation (and still does not require one). -/
def envPrefDedicated : DriverEnv :=
  { envA with get_memory_dedicated_requirements := fun _ => ⟨1, 0⟩ }

/-! ### Helper lemmas -/

@[simp]
theorem Step.bind_ok {α β : Type} (a : α) (f : α → Step β) :
    Step.bind (Step.ok a) f = f a := rfl

@[simp]
theorem Step.bind_error {α β : Type} (e : ImageCreationError) (f : α → Step β) :
    Step.bind (Step.error e) f = Step.error e := rfl

@[simp]
theorem Step.bind_panicked {α β : Type} (f : α → Step β) :
    Step.bind (Step.panicked : Step α) f = Step.panicked := rfl

/-- The dimension-derived maximum mip count is always at least 1, so the
`debug_assert!(max_mipmaps >= 1)` of the source never fires. -/
@[simp]
theorem max_mipmaps_pos (d : ImageDimensions) : 1 ≤ d.max_mipmaps := by
  cases d <;> simp [ImageDimensions.max_mipmaps]

/-- Behaviour of `resolveMipmaps` on an explicit count: the assertion never
fires, a count below 1 is fatal, a count above the maximum is deferred. -/
theorem resolveMipmaps_specific (dbg : Bool) (dims : ImageDimensions)
    (num : Nat) :
    resolveMipmaps dbg dims (.specific num) =
      if num < 1 then
        Step.error (.invalidMipmapsCount num ⟨1, dims.max_mipmaps + 1⟩)
      else if num > dims.max_mipmaps then
        Step.ok (num, some (.invalidMipmapsCount num ⟨1, dims.max_mipmaps + 1⟩))
      else
        Step.ok (num, Option.none) := by
  simp [resolveMipmaps]

/-- Specialization: an explicit count of 0 is immediately fatal. -/
theorem resolveMipmaps_zero (dbg : Bool) (dims : ImageDimensions) :
    resolveMipmaps dbg dims (.specific 0) =
      Step.error (.invalidMipmapsCount 0 ⟨1, dims.max_mipmaps + 1⟩) := by
  simp [resolveMipmaps_specific]

/-- Specialization: an explicit count above the maximum is deferred. -/
theorem resolveMipmaps_over (dbg : Bool) (dims : ImageDimensions) (num : Nat)
    (h : dims.max_mipmaps < num) :
    resolveMipmaps dbg dims (.specific num) =
      Step.ok (num, some (.invalidMipmapsCount num ⟨1, dims.max_mipmaps + 1⟩)) := by
  have h1 : ¬num < 1 := by omega
  simp [resolveMipmaps_specific, h, h1]

/-- Inversion for `Step.bind` producing a value. -/
theorem bind_eq_ok {α β : Type} {s : Step α} {f : α → Step β} {b : β}
    (h : Step.bind s f = Step.ok b) : ∃ a, s = Step.ok a ∧ f a = Step.ok b := by
  cases s with
  | panicked => simp [Step.bind] at h
  | error e => simp [Step.bind] at h
  | ok a => exact ⟨a, rfl, h⟩

/-- Any value produced by `finishCreation` is an owned handle carrying the
supplied creation parameters. -/
theorem finishCreation_ok {device env dbg usage format flags dimensions
    num_samples mipmaps format_features sh_mode sh_indices linear_tiling
    preinit_layout ty extent array_layers} {img : UnsafeImage}
    {reqs : MemoryRequirements}
    (h : finishCreation device env dbg usage format flags dimensions
      num_samples mipmaps format_features sh_mode sh_indices linear_tiling
      preinit_layout ty extent array_layers = Step.ok (img, reqs)) :
    ∃ image : Nat,
      img = { image := image
              device := device
              usage := usage
              format := format
              flags := flags
              dimensions := dimensions
              samples := num_samples
              mipmaps := mipmaps
              format_features := format_features
              needs_destruction := true
              preinit_layout := preinit_layout } := by
  unfold finishCreation at h
  obtain ⟨image, himg, h⟩ := bind_eq_ok h
  obtain ⟨mem, hmem, h⟩ := bind_eq_ok h
  refine ⟨image, ?_⟩
  have := (Step.ok.injEq _ _).mp h
  exact (Prod.mk.injEq _ _ _ _).mp this |>.1.symm

/-- Any value produced by `new_impl` went through `finishCreation`, hence is an
owned handle (`needs_destruction = true`). -/
theorem new_impl_ok_owned {device env dbg usage format flags dimensions
    num_samples mipmaps sh_mode sh_indices linear_tiling preinit_layout}
    {img : UnsafeImage} {reqs : MemoryRequirements}
    (h : new_impl device env dbg usage format flags dimensions num_samples
      mipmaps sh_mode sh_indices linear_tiling preinit_layout =
      Step.ok (img, reqs)) : img.needs_destruction = true := by
  unfold new_impl at h
  split at h
  · exact absurd h (by simp)
  · obtain ⟨ff, hff, h⟩ := bind_eq_ok h
    split at h
    · exact absurd h (by simp)
    · split at h
      · exact absurd h (by simp)
      · obtain ⟨resolved, hres, h⟩ := bind_eq_ok h
        obtain ⟨sd, hsd, h⟩ := bind_eq_ok h
        split at h
        · exact absurd h (by simp)
        · obtain ⟨decoded, hdec, h⟩ := bind_eq_ok h
          obtain ⟨u, hu, h⟩ := bind_eq_ok h
          obtain ⟨u2, hu2, h⟩ := bind_eq_ok h
          obtain ⟨image, himg⟩ := finishCreation_ok h
          rw [himg]


/-- A 32 by 32 single-layer 2D dimension value, as in the source's unit tests. -/
def dims32 : ImageDimensions := .dim2d 32 32 1

/-! ### Claims -/

/-- Claim C10: a handle imported via `from_raw` always reports a false
preinitialized-layout flag and always records the format's optimal-tiling
feature set, regardless of the remaining arguments (in particular regardless of
how the underlying native image was actually created). -/
theorem from_raw_preinit_false_and_optimal_features
    (device : Device) (handle : Nat) (usage : ImageUsage) (format : Format)
    (flags : ImageCreateFlags) (dimensions : ImageDimensions)
    (samples mipmaps : Nat) :
    (from_raw device handle usage format flags dimensions samples
        mipmaps).preinit_layout = false ∧
    (from_raw device handle usage format flags dimensions samples
        mipmaps).format_features =
      (device.format_properties format).optimal_tiling_features := by
  exact ⟨rfl, rfl⟩

/-- Claim C6: dropping a handle produced by `from_raw` issues no native
`DestroyImage` call, while dropping a handle produced by creation
(`new_impl`) issues exactly one `DestroyImage` call, on the handle's own
native identity. -/
theorem drop_destroy_behaviour :
    (∀ (device : Device) (handle : Nat) (usage : ImageUsage) (format : Format)
        (flags : ImageCreateFlags) (dimensions : ImageDimensions)
        (samples mipmaps : Nat),
      (from_raw device handle usage format flags dimensions samples
          mipmaps).dropDestroyCalls = []) ∧
    (∀ (device : Device) (env : DriverEnv) (dbg : Bool) (usage : ImageUsage)
        (format : Format) (flags : ImageCreateFlags)
        (dimensions : ImageDimensions) (num_samples : Nat)
        (mipmaps : MipmapsCount) (sh_mode : Nat) (sh_indices : List Nat)
        (lt pre : Bool) (img : UnsafeImage) (reqs : MemoryRequirements),
      new_impl device env dbg usage format flags dimensions num_samples mipmaps
          sh_mode sh_indices lt pre = Step.ok (img, reqs) →
      img.dropDestroyCalls = [img.image]) := by
  constructor
  · intro device handle usage format flags dimensions samples mipmaps
    rfl
  · intro device env dbg usage format flags dimensions num_samples mipmaps
      sh_mode sh_indices lt pre img reqs h
    have hd := new_impl_ok_owned h
    simp [UnsafeImage.dropDestroyCalls, hd]

/-- Witness for claim C6: on the concrete sampled-image creation that the
source's `create_sampled` test performs, creation succeeds and the produced
handle is dropped with exactly one destroy call, while an imported handle is
dropped with none. -/
theorem drop_destroy_behaviour_witness :
    (from_raw deviceA 7 usageSampled fmtRGBA ImageCreateFlags.none dims32 1
        1).dropDestroyCalls = [] ∧
    ∃ img reqs,
      new_impl deviceA envA false usageSampled fmtRGBA ImageCreateFlags.none
          dims32 1 (.specific 1) 0 [] false false = Step.ok (img, reqs) ∧
      img.dropDestroyCalls = [img.image] := by
  refine ⟨drop_destroy_behaviour.1 deviceA 7 usageSampled fmtRGBA
    ImageCreateFlags.none dims32 1 1, ?_⟩
  refine ⟨{ image := 42
            device := deviceA
            usage := usageSampled
            format := fmtRGBA
            flags := ImageCreateFlags.none
            dimensions := dims32
            samples := 1
            mipmaps := 1
            format_features := featuresAll
            needs_destruction := true
            preinit_layout := false }, ⟨1024, 256, 7, false⟩, rfl, ?_⟩
  exact drop_destroy_behaviour.2 deviceA envA false usageSampled fmtRGBA
    ImageCreateFlags.none dims32 1 (.specific 1) 0 [] false false _ _ rfl

/-- A sample count of 0 is immediately fatal in the sample validation. -/
theorem checkSamples_zero (device : Device) (usage : ImageUsage)
    (format : Format) :
    checkSamples device usage format 0 =
      Step.error (.unsupportedSamplesCount 0) := by
  simp [checkSamples]

/-- A non-power-of-two sample count is immediately fatal in the sample
validation. -/
theorem checkSamples_not_pow2 (device : Device) (usage : ImageUsage)
    (format : Format) (n : Nat) (h0 : n ≠ 0)
    (hp : is_power_of_two n = false) :
    checkSamples device usage format n =
      Step.error (.unsupportedSamplesCount n) := by
  unfold checkSamples
  rw [if_neg h0, if_pos]
  simp [hp]

/-- Claim C3, counterexample: with an all-zero usage bit set, a create call with
sample count 0 fails with `UnsupportedUsage` — the all-zero-usage check runs
before the sample check — so a sample count of 0 does not yield
`UnsupportedSamplesCount` regardless of the requested usage. -/
theorem samples_zero_usage_none_counterexample :
    new_impl deviceA envA false ImageUsage.none fmtRGBA ImageCreateFlags.none
        dims32 0 (.specific 1) 0 [] false false =
      Step.error ImageCreationError.unsupportedUsage ∧
    ¬∃ n, new_impl deviceA envA false ImageUsage.none fmtRGBA
        ImageCreateFlags.none dims32 0 (.specific 1) 0 [] false false =
      Step.error (ImageCreationError.unsupportedSamplesCount n) := by
  have h1 : new_impl deviceA envA false ImageUsage.none fmtRGBA
      ImageCreateFlags.none dims32 0 (.specific 1) 0 [] false false =
      Step.error ImageCreationError.unsupportedUsage := rfl
  refine ⟨h1, ?_⟩
  rintro ⟨n, hn⟩
  rw [h1] at hn
  simp at hn

/-- Claim C3 as amended: for every create call that passes the validation
steps preceding the sample check (no sparse/mutable-format flag, format-feature
and usage checks, nonempty usage, the transient-attachment rule, and mip-count
resolution), a requested sample count of 0 yields `UnsupportedSamplesCount`,
and any nonzero non-power-of-two sample count yields `UnsupportedSamplesCount`,
for every usage bit set satisfying those earlier checks. -/
theorem samples_validation_amended :
    (∀ (device : Device) (env : DriverEnv) (dbg : Bool) (usage : ImageUsage)
        (format : Format) (flags : ImageCreateFlags) (dims : ImageDimensions)
        (mips : MipmapsCount) (sh_mode : Nat) (sh_indices : List Nat)
        (lt pre : Bool) (ff : FormatFeatures)
        (r : Nat × Option ImageCreationError),
      ¬(flags.sparse_binding ∨ flags.sparse_residency ∨ flags.sparse_aliased ∨
        flags.mutable_format) →
      checkFormatFeatures device usage format lt = Step.ok ff →
      usage ≠ ImageUsage.none →
      ¬(usage.transient_attachment ∧
        ¬({ usage with
            transient_attachment := false
            color_attachment := false
            depth_stencil_attachment := false
            input_attachment := false } = ImageUsage.none)) →
      resolveMipmaps dbg dims mips = Step.ok r →
      new_impl device env dbg usage format flags dims 0 mips sh_mode sh_indices
          lt pre = Step.error (.unsupportedSamplesCount 0)) ∧
    (∀ (device : Device) (env : DriverEnv) (dbg : Bool) (usage : ImageUsage)
        (format : Format) (flags : ImageCreateFlags) (dims : ImageDimensions)
        (num_samples : Nat) (mips : MipmapsCount) (sh_mode : Nat)
        (sh_indices : List Nat) (lt pre : Bool) (ff : FormatFeatures)
        (r : Nat × Option ImageCreationError),
      ¬(flags.sparse_binding ∨ flags.sparse_residency ∨ flags.sparse_aliased ∨
        flags.mutable_format) →
      checkFormatFeatures device usage format lt = Step.ok ff →
      usage ≠ ImageUsage.none →
      ¬(usage.transient_attachment ∧
        ¬({ usage with
            transient_attachment := false
            color_attachment := false
            depth_stencil_attachment := false
            input_attachment := false } = ImageUsage.none)) →
      resolveMipmaps dbg dims mips = Step.ok r →
      num_samples ≠ 0 →
      is_power_of_two num_samples = false →
      new_impl device env dbg usage format flags dims num_samples mips sh_mode
          sh_indices lt pre =
        Step.error (.unsupportedSamplesCount num_samples)) := by
  constructor
  · intro device env dbg usage format flags dims mips sh_mode sh_indices lt pre
      ff r h0 hff hnone htr hm
    unfold new_impl
    rw [if_neg h0, hff]
    simp only [Step.bind_ok]
    rw [if_neg hnone, if_neg htr, hm]
    simp only [Step.bind_ok]
    rw [checkSamples_zero]
    simp only [Step.bind_error]
  · intro device env dbg usage format flags dims num_samples mips sh_mode
      sh_indices lt pre ff r h0 hff hnone htr hm hz hp
    unfold new_impl
    rw [if_neg h0, hff]
    simp only [Step.bind_ok]
    rw [if_neg hnone, if_neg htr, hm]
    simp only [Step.bind_ok]
    rw [checkSamples_not_pow2 device usage format num_samples hz hp]
    simp only [Step.bind_error]

/-- Witness for claim C3: on the concrete inputs of the source's `zero_sample`
and `non_po2_sample` tests (sampled usage, 32 by 32, counts 0 and 5), the
amended claim yields `UnsupportedSamplesCount`. -/
theorem samples_validation_amended_witness :
    new_impl deviceA envA false usageSampled fmtRGBA ImageCreateFlags.none
        dims32 0 (.specific 1) 0 [] false false =
      Step.error (.unsupportedSamplesCount 0) ∧
    new_impl deviceA envA false usageSampled fmtRGBA ImageCreateFlags.none
        dims32 5 (.specific 1) 0 [] false false =
      Step.error (.unsupportedSamplesCount 5) := by
  constructor
  · exact samples_validation_amended.1 deviceA envA false usageSampled fmtRGBA
      ImageCreateFlags.none dims32 (.specific 1) 0 [] false false featuresAll
      (1, Option.none) (by decide) rfl (by decide) (by decide) rfl
  · exact samples_validation_amended.2 deviceA envA false usageSampled fmtRGBA
      ImageCreateFlags.none dims32 5 (.specific 1) 0 [] false false featuresAll
      (1, Option.none) (by decide) rfl (by decide) (by decide) rfl
      (by decide) (by decide)

/-- Claim C2, counterexample: with an all-zero usage bit set, a create call with
an explicit mip count of 0 fails with `UnsupportedUsage` — the usage checks run
before the mip-count resolution — so a mip count of 0 does not yield
`InvalidMipmapsCount` for every create call. -/
theorem mip_zero_usage_none_counterexample :
    new_impl deviceA envA false ImageUsage.none fmtRGBA ImageCreateFlags.none
        dims32 1 (.specific 0) 0 [] false false =
      Step.error ImageCreationError.unsupportedUsage ∧
    ¬∃ obtained vr, new_impl deviceA envA false ImageUsage.none fmtRGBA
        ImageCreateFlags.none dims32 1 (.specific 0) 0 [] false false =
      Step.error (ImageCreationError.invalidMipmapsCount obtained vr) := by
  have h1 : new_impl deviceA envA false ImageUsage.none fmtRGBA
      ImageCreateFlags.none dims32 1 (.specific 0) 0 [] false false =
      Step.error ImageCreationError.unsupportedUsage := rfl
  refine ⟨h1, ?_⟩
  rintro ⟨obtained, vr, hn⟩
  rw [h1] at hn
  simp at hn

/-- Claim C2 as amended: for every create call that passes the validation steps
preceding the mip-count resolution (no sparse/mutable-format flag,
format-feature and usage checks, nonempty usage, the transient-attachment
rule), an explicit mip count of 0 yields `InvalidMipmapsCount` with obtained 0
and a valid range starting at 1; an explicit count above the dimension-derived
maximum — when the remaining sample, storage, dimension and flag checks pass,
no later deferred error overwrites it, and the fallback query reports a lower
supported maximum — yields `InvalidMipmapsCount` with the requested value and a
range starting at 1, while a fallback report covering the request discards the
error and creation proceeds; the `Log2` policy resolves to the
dimension-derived maximum and the `One` policy resolves to 1. -/
theorem mipmaps_validation_amended :
    (∀ (device : Device) (env : DriverEnv) (dbg : Bool) (usage : ImageUsage)
        (format : Format) (flags : ImageCreateFlags) (dims : ImageDimensions)
        (num_samples : Nat) (sh_mode : Nat) (sh_indices : List Nat)
        (lt pre : Bool) (ff : FormatFeatures),
      ¬(flags.sparse_binding ∨ flags.sparse_residency ∨ flags.sparse_aliased ∨
        flags.mutable_format) →
      checkFormatFeatures device usage format lt = Step.ok ff →
      usage ≠ ImageUsage.none →
      ¬(usage.transient_attachment ∧
        ¬({ usage with
            transient_attachment := false
            color_attachment := false
            depth_stencil_attachment := false
            input_attachment := false } = ImageUsage.none)) →
      new_impl device env dbg usage format flags dims num_samples (.specific 0)
          sh_mode sh_indices lt pre =
        Step.error (.invalidMipmapsCount 0 ⟨1, dims.max_mipmaps + 1⟩)) ∧
    (∀ (device : Device) (env : DriverEnv) (dbg : Bool) (usage : ImageUsage)
        (format : Format) (flags : ImageCreateFlags) (dims : ImageDimensions)
        (num_samples num : Nat) (sh_mode : Nat) (sh_indices : List Nat)
        (lt pre : Bool) (ff : FormatFeatures) (ty : ImageType)
        (extent : Extent3D) (array_layers : Nat)
        (props : ImageFormatProperties),
      ¬(flags.sparse_binding ∨ flags.sparse_residency ∨ flags.sparse_aliased ∨
        flags.mutable_format) →
      checkFormatFeatures device usage format lt = Step.ok ff →
      usage ≠ ImageUsage.none →
      ¬(usage.transient_attachment ∧
        ¬({ usage with
            transient_attachment := false
            color_attachment := false
            depth_stencil_attachment := false
            input_attachment := false } = ImageUsage.none)) →
      dims.max_mipmaps < num →
      checkSamples device usage format num_samples = Step.ok Option.none →
      ¬(usage.storage ∧ num_samples > 1 ∧
        ¬device.enabled_features.shader_storage_image_multisample) →
      decodeDimensions dims = Step.ok (ty, extent, array_layers) →
      checkFlagsRequirements flags ty extent array_layers = Step.ok () →
      checkLimits device flags dims ty extent array_layers = Option.none →
      env.get_physical_device_image_format_properties format.id ty.toVk
        (if lt then VK_IMAGE_TILING_LINEAR else VK_IMAGE_TILING_OPTIMAL)
        usage.to_usage_bits 0 = .success props →
      props.maxMipLevels < num →
      new_impl device env dbg usage format flags dims num_samples
          (.specific num) sh_mode sh_indices lt pre =
        Step.error (.invalidMipmapsCount num ⟨1, dims.max_mipmaps + 1⟩)) ∧
    (∀ (device : Device) (env : DriverEnv) (dbg : Bool) (usage : ImageUsage)
        (format : Format) (flags : ImageCreateFlags) (dims : ImageDimensions)
        (num_samples num : Nat) (sh_mode : Nat) (sh_indices : List Nat)
        (lt pre : Bool) (ff : FormatFeatures) (ty : ImageType)
        (extent : Extent3D) (array_layers : Nat)
        (props : ImageFormatProperties),
      ¬(flags.sparse_binding ∨ flags.sparse_residency ∨ flags.sparse_aliased ∨
        flags.mutable_format) →
      checkFormatFeatures device usage format lt = Step.ok ff →
      usage ≠ ImageUsage.none →
      ¬(usage.transient_attachment ∧
        ¬({ usage with
            transient_attachment := false
            color_attachment := false
            depth_stencil_attachment := false
            input_attachment := false } = ImageUsage.none)) →
      dims.max_mipmaps < num →
      checkSamples device usage format num_samples = Step.ok Option.none →
      ¬(usage.storage ∧ num_samples > 1 ∧
        ¬device.enabled_features.shader_storage_image_multisample) →
      decodeDimensions dims = Step.ok (ty, extent, array_layers) →
      checkFlagsRequirements flags ty extent array_layers = Step.ok () →
      checkLimits device flags dims ty extent array_layers = Option.none →
      env.get_physical_device_image_format_properties format.id ty.toVk
        (if lt then VK_IMAGE_TILING_LINEAR else VK_IMAGE_TILING_OPTIMAL)
        usage.to_usage_bits 0 = .success props →
      ¬(extent.width > props.maxExtent.width ∨
        extent.height > props.maxExtent.height ∨
        extent.depth > props.maxExtent.depth ∨
        num > props.maxMipLevels ∨
        array_layers > props.maxArrayLayers ∨
        num_samples &&& props.sampleCounts = 0) →
      new_impl device env dbg usage format flags dims num_samples
          (.specific num) sh_mode sh_indices lt pre =
        finishCreation device env dbg usage format flags dims num_samples num
          ff sh_mode sh_indices lt pre ty extent array_layers) ∧
    (∀ (dbg : Bool) (dims : ImageDimensions),
      resolveMipmaps dbg dims .log2 = Step.ok (dims.max_mipmaps, Option.none)) ∧
    (∀ (dbg : Bool) (dims : ImageDimensions),
      resolveMipmaps dbg dims .one = Step.ok (1, Option.none)) := by
  refine ⟨?_, ?_, ?_, fun _ _ => rfl, fun _ _ => rfl⟩
  · intro device env dbg usage format flags dims num_samples sh_mode sh_indices
      lt pre ff h0 hff hnone htr
    unfold new_impl
    rw [if_neg h0, hff]
    simp only [Step.bind_ok]
    rw [if_neg hnone, if_neg htr, resolveMipmaps_zero]
    simp only [Step.bind_error]
  · intro device env dbg usage format flags dims num_samples num sh_mode
      sh_indices lt pre ff ty extent array_layers props h0 hff hnone htr hover
      hs h6 hdec hfl hlim hq hmip
    unfold new_impl
    rw [if_neg h0, hff]
    simp only [Step.bind_ok]
    rw [if_neg hnone, if_neg htr, resolveMipmaps_over dbg dims num hover]
    simp only [Step.bind_ok]
    rw [hs]
    simp only [Step.bind_ok]
    rw [if_neg h6, hdec]
    simp only [Step.bind_ok]
    rw [hfl]
    simp only [Step.bind_ok, hlim]
    simp only [Option.orElse]
    unfold capabilityFallback
    rw [hq]
    dsimp only
    rw [if_pos (Or.inr (Or.inr (Or.inr (Or.inl hmip))))]
    simp only [Step.bind_error]
  · intro device env dbg usage format flags dims num_samples num sh_mode
      sh_indices lt pre ff ty extent array_layers props h0 hff hnone htr hover
      hs h6 hdec hfl hlim hq hin
    unfold new_impl
    rw [if_neg h0, hff]
    simp only [Step.bind_ok]
    rw [if_neg hnone, if_neg htr, resolveMipmaps_over dbg dims num hover]
    simp only [Step.bind_ok]
    rw [hs]
    simp only [Step.bind_ok]
    rw [if_neg h6, hdec]
    simp only [Step.bind_ok]
    rw [hfl]
    simp only [Step.bind_ok, hlim]
    simp only [Option.orElse]
    unfold capabilityFallback
    rw [hq]
    dsimp only
    rw [if_neg hin]
    simp only [Step.bind_ok]

/-- Witness for claim C2: concrete instances of the amended claim — mip count 0
on a 32 by 32 sampled image yields `InvalidMipmapsCount{0, 1..7}`; mip count 20
(maximum 6, driver-reported maximum 13) yields `InvalidMipmapsCount{20, 1..7}`;
mip count 10 is rescued by the driver report and creation proceeds. -/
theorem mipmaps_validation_amended_witness :
    new_impl deviceA envA false usageSampled fmtRGBA ImageCreateFlags.none
        dims32 1 (.specific 0) 0 [] false false =
      Step.error (.invalidMipmapsCount 0 ⟨1, 7⟩) ∧
    new_impl deviceA envA false usageSampled fmtRGBA ImageCreateFlags.none
        dims32 1 (.specific 20) 0 [] false false =
      Step.error (.invalidMipmapsCount 20 ⟨1, 7⟩) ∧
    new_impl deviceA envA false usageSampled fmtRGBA ImageCreateFlags.none
        dims32 1 (.specific 10) 0 [] false false =
      finishCreation deviceA envA false usageSampled fmtRGBA
        ImageCreateFlags.none dims32 1 10 featuresAll 0 [] false false .ty2d
        ⟨32, 32, 1⟩ 1 := by
  refine ⟨?_, ?_, ?_⟩
  · exact mipmaps_validation_amended.1 deviceA envA false usageSampled fmtRGBA
      ImageCreateFlags.none dims32 1 0 [] false false featuresAll
      (by decide) rfl (by decide) (by decide)
  · exact mipmaps_validation_amended.2.1 deviceA envA false usageSampled
      fmtRGBA ImageCreateFlags.none dims32 1 20 0 [] false false featuresAll
      .ty2d ⟨32, 32, 1⟩ 1 ⟨⟨4096, 4096, 4096⟩, 13, 256, 0x7f⟩
      (by decide) rfl (by decide) (by decide) (by decide) rfl (by decide) rfl
      rfl rfl rfl (by decide)
  · exact mipmaps_validation_amended.2.2.1 deviceA envA false usageSampled
      fmtRGBA ImageCreateFlags.none dims32 1 10 0 [] false false featuresAll
      .ty2d ⟨32, 32, 1⟩ 1 ⟨⟨4096, 4096, 4096⟩, 13, 256, 0x7f⟩
      (by decide) rfl (by decide) (by decide) (by decide) rfl (by decide) rfl
      rfl rfl rfl (by decide)

/-- Under a nonempty feature set, the feature/usage validation either succeeds
with the resolved feature set or fails with `UnsupportedUsage` — never with
`FormatNotSupported`. -/
theorem checkFormatFeatures_cases (device : Device) (usage : ImageUsage)
    (format : Format) (lt : Bool)
    (hne : featuresFor device format lt ≠ FormatFeatures.default) :
    checkFormatFeatures device usage format lt =
      Step.ok (featuresFor device format lt) ∨
    checkFormatFeatures device usage format lt =
      Step.error .unsupportedUsage := by
  simp only [checkFormatFeatures]
  rw [if_neg hne]
  split_ifs <;> simp

/-- Claim C4, counterexample: on a device where the format supports no feature
at all under the requested tiling, a create call with transient-attachment plus
sampled usage fails with `FormatNotSupported`, not `UnsupportedUsage` — the
format-feature check runs before the transient-attachment rule. -/
theorem transient_sampled_counterexample :
    new_impl deviceNoFeat envA false
        { ImageUsage.none with transient_attachment := true, sampled := true }
        fmtRGBA ImageCreateFlags.none dims32 1 (.specific 1) 0 [] false false =
      Step.error ImageCreationError.formatNotSupported ∧
    new_impl deviceNoFeat envA false
        { ImageUsage.none with transient_attachment := true, sampled := true }
        fmtRGBA ImageCreateFlags.none dims32 1 (.specific 1) 0 [] false false ≠
      Step.error ImageCreationError.unsupportedUsage := by
  have h1 : new_impl deviceNoFeat envA false
      { ImageUsage.none with transient_attachment := true, sampled := true }
      fmtRGBA ImageCreateFlags.none dims32 1 (.specific 1) 0 [] false false =
      Step.error ImageCreationError.formatNotSupported := rfl
  refine ⟨h1, ?_⟩
  rw [h1]
  simp

/-- Claim C4 as amended: for every create call whose creation flags request no
sparse/mutable-format behaviour and whose format supports at least one feature
under the requested tiling, a usage with transient-attachment set together with
any usage bit outside color-attachment, depth-stencil-attachment and
input-attachment fails with `UnsupportedUsage`. -/
theorem transient_usage_amended
    (device : Device) (env : DriverEnv) (dbg : Bool) (usage : ImageUsage)
    (format : Format) (flags : ImageCreateFlags) (dims : ImageDimensions)
    (num_samples : Nat) (mips : MipmapsCount) (sh_mode : Nat)
    (sh_indices : List Nat) (lt pre : Bool)
    (h0 : ¬(flags.sparse_binding ∨ flags.sparse_residency ∨
      flags.sparse_aliased ∨ flags.mutable_format))
    (hne : featuresFor device format lt ≠ FormatFeatures.default)
    (htrans : usage.transient_attachment = true)
    (hrest : ¬({ usage with
        transient_attachment := false
        color_attachment := false
        depth_stencil_attachment := false
        input_attachment := false } = ImageUsage.none)) :
    new_impl device env dbg usage format flags dims num_samples mips sh_mode
        sh_indices lt pre = Step.error ImageCreationError.unsupportedUsage := by
  have hnone : usage ≠ ImageUsage.none := by
    intro h
    rw [h] at htrans
    exact absurd htrans (by decide)
  rcases checkFormatFeatures_cases device usage format lt hne with hok | herr
  · unfold new_impl
    rw [if_neg h0, hok]
    simp only [Step.bind_ok]
    rw [if_neg hnone, if_pos ⟨htrans, hrest⟩]
  · unfold new_impl
    rw [if_neg h0, herr]
    simp only [Step.bind_error]

/-- Witness for claim C4: the source's `transient_forbidden_with_some_usages`
test input — transient-attachment plus sampled on a fully featured format —
fails with `UnsupportedUsage`. -/
theorem transient_usage_amended_witness :
    new_impl deviceA envA false
        { ImageUsage.none with transient_attachment := true, sampled := true }
        fmtRGBA ImageCreateFlags.none dims32 1 (.specific 1) 0 [] false false =
      Step.error ImageCreationError.unsupportedUsage := by
  exact transient_usage_amended deviceA envA false
    { ImageUsage.none with transient_attachment := true, sampled := true }
    fmtRGBA ImageCreateFlags.none dims32 1 (.specific 1) 0 [] false false
    (by decide) (by decide) (by decide) (by decide)

/-- Claim C5, counterexample: with the cube-compatible flag and unequal width
and height (32 by 64) but a sample count of 0, the call fails with
`UnsupportedSamplesCount` — the sample check runs before the creation-flag
requirements — so such calls do not always fail with
`CreationFlagRequirementsNotMet`. -/
theorem cube_mismatch_counterexample :
    new_impl deviceA envA false usageSampled fmtRGBA
        { ImageCreateFlags.none with cube_compatible := true }
        (.dim2d 32 64 1) 0 (.specific 1) 0 [] false false =
      Step.error (ImageCreationError.unsupportedSamplesCount 0) ∧
    new_impl deviceA envA false usageSampled fmtRGBA
        { ImageCreateFlags.none with cube_compatible := true }
        (.dim2d 32 64 1) 0 (.specific 1) 0 [] false false ≠
      Step.error ImageCreationError.creationFlagRequirementsNotMet := by
  have h1 : new_impl deviceA envA false usageSampled fmtRGBA
      { ImageCreateFlags.none with cube_compatible := true }
      (.dim2d 32 64 1) 0 (.specific 1) 0 [] false false =
      Step.error (ImageCreationError.unsupportedSamplesCount 0) := rfl
  refine ⟨h1, ?_⟩
  rw [h1]
  simp

/-- Claim C5 as amended: for every create call that passes the validation steps
preceding the creation-flag requirements (no sparse/mutable-format flag,
format-feature/usage checks, nonempty usage, transient rule, mip resolution,
sample check, storage-multisample gate, nonzero dimensions), a cube-compatible
flag with a non-2D type, unequal width/height or fewer than 6 array layers
fails with `CreationFlagRequirementsNotMet`; and, when the cube-compatible
requirement raises no error, a 2D-array-compatible flag with a non-3D type
fails with the same error. -/
theorem creation_flags_amended :
    (∀ (device : Device) (env : DriverEnv) (dbg : Bool) (usage : ImageUsage)
        (format : Format) (flags : ImageCreateFlags) (dims : ImageDimensions)
        (num_samples : Nat) (mips : MipmapsCount) (sh_mode : Nat)
        (sh_indices : List Nat) (lt pre : Bool) (ff : FormatFeatures)
        (r : Nat × Option ImageCreationError)
        (sd : Option ImageCreationError) (ty : ImageType) (extent : Extent3D)
        (array_layers : Nat),
      ¬(flags.sparse_binding ∨ flags.sparse_residency ∨ flags.sparse_aliased ∨
        flags.mutable_format) →
      checkFormatFeatures device usage format lt = Step.ok ff →
      usage ≠ ImageUsage.none →
      ¬(usage.transient_attachment ∧
        ¬({ usage with
            transient_attachment := false
            color_attachment := false
            depth_stencil_attachment := false
            input_attachment := false } = ImageUsage.none)) →
      resolveMipmaps dbg dims mips = Step.ok r →
      checkSamples device usage format num_samples = Step.ok sd →
      ¬(usage.storage ∧ num_samples > 1 ∧
        ¬device.enabled_features.shader_storage_image_multisample) →
      decodeDimensions dims = Step.ok (ty, extent, array_layers) →
      flags.cube_compatible = true →
      ¬(ty = ImageType.ty2d ∧ extent.width = extent.height ∧
        6 ≤ array_layers) →
      new_impl device env dbg usage format flags dims num_samples mips sh_mode
          sh_indices lt pre =
        Step.error ImageCreationError.creationFlagRequirementsNotMet) ∧
    (∀ (device : Device) (env : DriverEnv) (dbg : Bool) (usage : ImageUsage)
        (format : Format) (flags : ImageCreateFlags) (dims : ImageDimensions)
        (num_samples : Nat) (mips : MipmapsCount) (sh_mode : Nat)
        (sh_indices : List Nat) (lt pre : Bool) (ff : FormatFeatures)
        (r : Nat × Option ImageCreationError)
        (sd : Option ImageCreationError) (ty : ImageType) (extent : Extent3D)
        (array_layers : Nat),
      ¬(flags.sparse_binding ∨ flags.sparse_residency ∨ flags.sparse_aliased ∨
        flags.mutable_format) →
      checkFormatFeatures device usage format lt = Step.ok ff →
      usage ≠ ImageUsage.none →
      ¬(usage.transient_attachment ∧
        ¬({ usage with
            transient_attachment := false
            color_attachment := false
            depth_stencil_attachment := false
            input_attachment := false } = ImageUsage.none)) →
      resolveMipmaps dbg dims mips = Step.ok r →
      checkSamples device usage format num_samples = Step.ok sd →
      ¬(usage.storage ∧ num_samples > 1 ∧
        ¬device.enabled_features.shader_storage_image_multisample) →
      decodeDimensions dims = Step.ok (ty, extent, array_layers) →
      ¬(flags.cube_compatible ∧
        ¬(ty = ImageType.ty2d ∧ extent.width = extent.height ∧
          6 ≤ array_layers)) →
      flags.array_2d_compatible = true →
      ¬(ty = ImageType.ty3d) →
      new_impl device env dbg usage format flags dims num_samples mips sh_mode
          sh_indices lt pre =
        Step.error ImageCreationError.creationFlagRequirementsNotMet) := by
  constructor
  · intro device env dbg usage format flags dims num_samples mips sh_mode
      sh_indices lt pre ff r sd ty extent array_layers h0 hff hnone htr hm hs
      h6 hdec hcube hviol
    unfold new_impl
    rw [if_neg h0, hff]
    simp only [Step.bind_ok]
    rw [if_neg hnone, if_neg htr, hm]
    simp only [Step.bind_ok]
    rw [hs]
    simp only [Step.bind_ok]
    rw [if_neg h6, hdec]
    simp only [Step.bind_ok]
    rw [show checkFlagsRequirements flags ty extent array_layers =
      Step.error ImageCreationError.creationFlagRequirementsNotMet from by
        unfold checkFlagsRequirements
        rw [if_pos ⟨hcube, hviol⟩]]
    simp only [Step.bind_error]
  · intro device env dbg usage format flags dims num_samples mips sh_mode
      sh_indices lt pre ff r sd ty extent array_layers h0 hff hnone htr hm hs
      h6 hdec hcubeok harr hty
    unfold new_impl
    rw [if_neg h0, hff]
    simp only [Step.bind_ok]
    rw [if_neg hnone, if_neg htr, hm]
    simp only [Step.bind_ok]
    rw [hs]
    simp only [Step.bind_ok]
    rw [if_neg h6, hdec]
    simp only [Step.bind_ok]
    rw [show checkFlagsRequirements flags ty extent array_layers =
      Step.error ImageCreationError.creationFlagRequirementsNotMet from by
        unfold checkFlagsRequirements
        rw [if_neg hcubeok, if_pos ⟨harr, hty⟩]]
    simp only [Step.bind_error]

/-- Witness for claim C5: the source's `cubecompatible_dims_mismatch` test
input (cube flag, width 32, height 64) fails with
`CreationFlagRequirementsNotMet`, as does a 2D-array-compatible flag on a 2D
image. -/
theorem creation_flags_amended_witness :
    new_impl deviceA envA false usageSampled fmtRGBA
        { ImageCreateFlags.none with cube_compatible := true }
        (.dim2d 32 64 1) 1 (.specific 1) 0 [] false false =
      Step.error ImageCreationError.creationFlagRequirementsNotMet ∧
    new_impl deviceA envA false usageSampled fmtRGBA
        { ImageCreateFlags.none with array_2d_compatible := true }
        dims32 1 (.specific 1) 0 [] false false =
      Step.error ImageCreationError.creationFlagRequirementsNotMet := by
  constructor
  · exact creation_flags_amended.1 deviceA envA false usageSampled fmtRGBA
      { ImageCreateFlags.none with cube_compatible := true } (.dim2d 32 64 1)
      1 (.specific 1) 0 [] false false featuresAll (1, Option.none)
      Option.none .ty2d ⟨32, 64, 1⟩ 1
      (by decide) rfl (by decide) (by decide) rfl rfl (by decide) rfl
      (by decide) (by decide)
  · exact creation_flags_amended.2 deviceA envA false usageSampled fmtRGBA
      { ImageCreateFlags.none with array_2d_compatible := true } dims32
      1 (.specific 1) 0 [] false false featuresAll (1, Option.none)
      Option.none .ty2d ⟨32, 32, 1⟩ 1
      (by decide) rfl (by decide) (by decide) rfl rfl (by decide) rfl
      (by decide) (by decide) (by decide)

/-- Claim C9: the deferred-error slot holds one value that later checks
overwrite — when a create call records both an over-limit explicit mip count
(first) and a dimension/array-layer excess (later), and the fallback query does
not rescue the parameters, the error returned is the last-recorded
`UnsupportedDimensions`, not the earlier `InvalidMipmapsCount`. -/
theorem deferred_error_last_write_wins
    (device : Device) (env : DriverEnv) (dbg : Bool) (usage : ImageUsage)
    (format : Format) (flags : ImageCreateFlags) (dims : ImageDimensions)
    (num_samples num : Nat) (sh_mode : Nat) (sh_indices : List Nat)
    (lt pre : Bool) (ff : FormatFeatures) (ty : ImageType) (extent : Extent3D)
    (array_layers : Nat) (props : ImageFormatProperties)
    (h0 : ¬(flags.sparse_binding ∨ flags.sparse_residency ∨
      flags.sparse_aliased ∨ flags.mutable_format))
    (hff : checkFormatFeatures device usage format lt = Step.ok ff)
    (hnone : usage ≠ ImageUsage.none)
    (htr : ¬(usage.transient_attachment ∧
      ¬({ usage with
          transient_attachment := false
          color_attachment := false
          depth_stencil_attachment := false
          input_attachment := false } = ImageUsage.none)))
    (hover : dims.max_mipmaps < num)
    (hs : checkSamples device usage format num_samples = Step.ok Option.none)
    (h6 : ¬(usage.storage ∧ num_samples > 1 ∧
      ¬device.enabled_features.shader_storage_image_multisample))
    (hdec : decodeDimensions dims = Step.ok (ty, extent, array_layers))
    (hfl : checkFlagsRequirements flags ty extent array_layers = Step.ok ())
    (hlim : checkLimits device flags dims ty extent array_layers =
      some (.unsupportedDimensions dims))
    (hq : env.get_physical_device_image_format_properties format.id ty.toVk
      (if lt then VK_IMAGE_TILING_LINEAR else VK_IMAGE_TILING_OPTIMAL)
      usage.to_usage_bits 0 = .success props)
    (hnr : props.maxArrayLayers < array_layers) :
    new_impl device env dbg usage format flags dims num_samples (.specific num)
        sh_mode sh_indices lt pre =
      Step.error (.unsupportedDimensions dims) := by
  unfold new_impl
  rw [if_neg h0, hff]
  simp only [Step.bind_ok]
  rw [if_neg hnone, if_neg htr, resolveMipmaps_over dbg dims num hover]
  simp only [Step.bind_ok]
  rw [hs]
  simp only [Step.bind_ok]
  rw [if_neg h6, hdec]
  simp only [Step.bind_ok]
  rw [hfl]
  simp only [Step.bind_ok, hlim]
  simp only [Option.orElse]
  unfold capabilityFallback
  rw [hq]
  dsimp only
  rw [if_pos (Or.inr (Or.inr (Or.inr (Or.inr (Or.inl hnr)))))]
  simp only [Step.bind_error]

/-- Witness for claim C9: mip count 20 (maximum 6, so an `InvalidMipmapsCount`
is recorded first) together with 500 array layers (limit 256, overwriting the
slot with `UnsupportedDimensions`), unrescued by the driver report (maximum 256
layers), returns `UnsupportedDimensions`. -/
theorem deferred_error_last_write_wins_witness :
    new_impl deviceA envA false usageSampled fmtRGBA ImageCreateFlags.none
        (.dim2d 32 32 500) 1 (.specific 20) 0 [] false false =
      Step.error (.unsupportedDimensions (.dim2d 32 32 500)) := by
  exact deferred_error_last_write_wins deviceA envA false usageSampled fmtRGBA
    ImageCreateFlags.none (.dim2d 32 32 500) 1 20 0 [] false false featuresAll
    .ty2d ⟨32, 32, 1⟩ 500 ⟨⟨4096, 4096, 4096⟩, 13, 256, 0x7f⟩
    (by decide) rfl (by decide) (by decide) (by decide) rfl (by decide) rfl
    rfl rfl rfl (by decide)

/-- Claim C1: when validation records a deferred error (over-limit mip count,
sample count absent from the narrowed mask, or a dimension/array-layer excess),
creation issues the single driver image-format-properties query for (format,
image type, tiling, usage bits, flags = 0) and: a format-not-supported failure
of the query supersedes the deferred error with `FormatNotSupported`; a report
covering the requested extent, mip count, array layers and sample count
discards the deferred error and creation proceeds; a report exceeded by any
requested value surfaces the original deferred error. -/
theorem fallback_query_trichotomy
    (device : Device) (env : DriverEnv) (dbg : Bool) (usage : ImageUsage)
    (format : Format) (flags : ImageCreateFlags) (dims : ImageDimensions)
    (num_samples : Nat) (mips : MipmapsCount) (sh_mode : Nat)
    (sh_indices : List Nat) (lt pre : Bool) (ff : FormatFeatures)
    (mipmapsN : Nat) (md sd : Option ImageCreationError) (ty : ImageType)
    (extent : Extent3D) (array_layers : Nat) (e : ImageCreationError)
    (h0 : ¬(flags.sparse_binding ∨ flags.sparse_residency ∨
      flags.sparse_aliased ∨ flags.mutable_format))
    (hff : checkFormatFeatures device usage format lt = Step.ok ff)
    (hnone : usage ≠ ImageUsage.none)
    (htr : ¬(usage.transient_attachment ∧
      ¬({ usage with
          transient_attachment := false
          color_attachment := false
          depth_stencil_attachment := false
          input_attachment := false } = ImageUsage.none)))
    (hm : resolveMipmaps dbg dims mips = Step.ok (mipmapsN, md))
    (hs : checkSamples device usage format num_samples = Step.ok sd)
    (h6 : ¬(usage.storage ∧ num_samples > 1 ∧
      ¬device.enabled_features.shader_storage_image_multisample))
    (hdec : decodeDimensions dims = Step.ok (ty, extent, array_layers))
    (hfl : checkFlagsRequirements flags ty extent array_layers = Step.ok ())
    (hcap : Option.orElse
      (checkLimits device flags dims ty extent array_layers)
      (fun _ => Option.orElse sd fun _ => md) = some e) :
    (env.get_physical_device_image_format_properties format.id ty.toVk
        (if lt then VK_IMAGE_TILING_LINEAR else VK_IMAGE_TILING_OPTIMAL)
        usage.to_usage_bits 0 = .formatNotSupported →
      new_impl device env dbg usage format flags dims num_samples mips sh_mode
          sh_indices lt pre =
        Step.error ImageCreationError.formatNotSupported) ∧
    (∀ props : ImageFormatProperties,
      env.get_physical_device_image_format_properties format.id ty.toVk
        (if lt then VK_IMAGE_TILING_LINEAR else VK_IMAGE_TILING_OPTIMAL)
        usage.to_usage_bits 0 = .success props →
      ¬(extent.width > props.maxExtent.width ∨
        extent.height > props.maxExtent.height ∨
        extent.depth > props.maxExtent.depth ∨
        mipmapsN > props.maxMipLevels ∨
        array_layers > props.maxArrayLayers ∨
        num_samples &&& props.sampleCounts = 0) →
      new_impl device env dbg usage format flags dims num_samples mips sh_mode
          sh_indices lt pre =
        finishCreation device env dbg usage format flags dims num_samples
          mipmapsN ff sh_mode sh_indices lt pre ty extent array_layers) ∧
    (∀ props : ImageFormatProperties,
      env.get_physical_device_image_format_properties format.id ty.toVk
        (if lt then VK_IMAGE_TILING_LINEAR else VK_IMAGE_TILING_OPTIMAL)
        usage.to_usage_bits 0 = .success props →
      (extent.width > props.maxExtent.width ∨
        extent.height > props.maxExtent.height ∨
        extent.depth > props.maxExtent.depth ∨
        mipmapsN > props.maxMipLevels ∨
        array_layers > props.maxArrayLayers ∨
        num_samples &&& props.sampleCounts = 0) →
      new_impl device env dbg usage format flags dims num_samples mips sh_mode
          sh_indices lt pre = Step.error e) := by
  have hred : new_impl device env dbg usage format flags dims num_samples mips
      sh_mode sh_indices lt pre =
      Step.bind (capabilityFallback env format ty lt usage.to_usage_bits extent
        mipmapsN array_layers num_samples e)
        (fun _ => finishCreation device env dbg usage format flags dims
          num_samples mipmapsN ff sh_mode sh_indices lt pre ty extent
          array_layers) := by
    unfold new_impl
    rw [if_neg h0, hff]
    simp only [Step.bind_ok]
    rw [if_neg hnone, if_neg htr, hm]
    simp only [Step.bind_ok]
    rw [hs]
    simp only [Step.bind_ok]
    rw [if_neg h6, hdec]
    simp only [Step.bind_ok]
    rw [hfl]
    simp only [Step.bind_ok]
    rw [hcap]
  refine ⟨?_, ?_, ?_⟩
  · intro hq
    rw [hred]
    unfold capabilityFallback
    rw [hq]
    rfl
  · intro props hq hin
    rw [hred]
    unfold capabilityFallback
    rw [hq]
    dsimp only
    rw [if_neg hin]
    simp only [Step.bind_ok]
  · intro props hq hex
    rw [hred]
    unfold capabilityFallback
    rw [hq]
    dsimp only
    rw [if_pos hex]
    simp only [Step.bind_error]

/-- Witness for claim C1: concrete instances of all three branches — a
format-not-supported query supersedes the deferred dimension error; a covering
report (maximum 13 mip levels against a request of 9) discards the deferred
mip error and creation proceeds; a report exceeded by the 500 requested array
layers surfaces the deferred `UnsupportedDimensions` error. -/
theorem fallback_query_trichotomy_witness :
    new_impl deviceA envFNS false usageSampled fmtRGBA ImageCreateFlags.none
        (.dim2d 32 32 500) 1 (.specific 1) 0 [] false false =
      Step.error ImageCreationError.formatNotSupported ∧
    new_impl deviceA envA false usageSampled fmtRGBA ImageCreateFlags.none
        dims32 1 (.specific 9) 0 [] false false =
      finishCreation deviceA envA false usageSampled fmtRGBA
        ImageCreateFlags.none dims32 1 9 featuresAll 0 [] false false .ty2d
        ⟨32, 32, 1⟩ 1 ∧
    new_impl deviceA envA false usageSampled fmtRGBA ImageCreateFlags.none
        (.dim2d 32 32 500) 1 (.specific 1) 0 [] false false =
      Step.error (.unsupportedDimensions (.dim2d 32 32 500)) := by
  refine ⟨?_, ?_, ?_⟩
  · exact (fallback_query_trichotomy deviceA envFNS false usageSampled fmtRGBA
      ImageCreateFlags.none (.dim2d 32 32 500) 1 (.specific 1) 0 [] false false
      featuresAll 1 Option.none Option.none .ty2d ⟨32, 32, 1⟩ 500
      (.unsupportedDimensions (.dim2d 32 32 500))
      (by decide) rfl (by decide) (by decide) rfl rfl (by decide) rfl rfl
      rfl).1 rfl
  · exact (fallback_query_trichotomy deviceA envA false usageSampled fmtRGBA
      ImageCreateFlags.none dims32 1 (.specific 9) 0 [] false false
      featuresAll 9 (some (.invalidMipmapsCount 9 ⟨1, 7⟩)) Option.none .ty2d
      ⟨32, 32, 1⟩ 1 (.invalidMipmapsCount 9 ⟨1, 7⟩)
      (by decide) rfl (by decide) (by decide) rfl rfl (by decide) rfl rfl
      rfl).2.1 ⟨⟨4096, 4096, 4096⟩, 13, 256, 0x7f⟩ rfl (by decide)
  · exact (fallback_query_trichotomy deviceA envA false usageSampled fmtRGBA
      ImageCreateFlags.none (.dim2d 32 32 500) 1 (.specific 1) 0 [] false false
      featuresAll 1 Option.none Option.none .ty2d ⟨32, 32, 1⟩ 500
      (.unsupportedDimensions (.dim2d 32 32 500))
      (by decide) rfl (by decide) (by decide) rfl rfl (by decide) rfl rfl
      rfl).2.2 ⟨⟨4096, 4096, 4096⟩, 13, 256, 0x7f⟩ rfl
      (Or.inr (Or.inr (Or.inr (Or.inr (Or.inl (by decide))))))

/-- With checked-build assertions off, the memory-requirements resolution never
fails: it always produces a value. -/
theorem computeMemReqs_no_assert (device : Device) (env : DriverEnv)
    (image : Nat) : ∃ m, computeMemReqs device env false image = Step.ok m := by
  simp only [computeMemReqs, Bool.false_eq_true, false_and, if_false]
  split_ifs <;> exact ⟨_, rfl⟩

/-- For each single-bit usage whose corresponding format feature is present,
the feature/usage validation succeeds with the resolved feature set. -/
theorem checkFormatFeatures_single_bit (device : Device) (format : Format)
    (lt : Bool) :
    ((featuresFor device format lt).sampled_image = true →
      checkFormatFeatures device { ImageUsage.none with sampled := true }
        format lt = Step.ok (featuresFor device format lt)) ∧
    ((featuresFor device format lt).storage_image = true →
      checkFormatFeatures device { ImageUsage.none with storage := true }
        format lt = Step.ok (featuresFor device format lt)) ∧
    ((featuresFor device format lt).color_attachment = true →
      checkFormatFeatures device
        { ImageUsage.none with color_attachment := true } format lt =
        Step.ok (featuresFor device format lt)) ∧
    ((featuresFor device format lt).depth_stencil_attachment = true →
      checkFormatFeatures device
        { ImageUsage.none with depth_stencil_attachment := true } format lt =
        Step.ok (featuresFor device format lt)) ∧
    (((featuresFor device format lt).color_attachment = true ∨
        (featuresFor device format lt).depth_stencil_attachment = true) →
      checkFormatFeatures device
        { ImageUsage.none with input_attachment := true } format lt =
        Step.ok (featuresFor device format lt)) ∧
    ((featuresFor device format lt).transfer_src = true →
      checkFormatFeatures device
        { ImageUsage.none with transfer_source := true } format lt =
        Step.ok (featuresFor device format lt)) ∧
    ((featuresFor device format lt).transfer_dst = true →
      checkFormatFeatures device
        { ImageUsage.none with transfer_destination := true } format lt =
        Step.ok (featuresFor device format lt)) := by
  refine ⟨fun hf => ?_, fun hf => ?_, fun hf => ?_, fun hf => ?_, fun hf => ?_,
    fun hf => ?_, fun hf => ?_⟩
  · have hne : featuresFor device format lt ≠ FormatFeatures.default := by
      intro he; rw [he] at hf; exact absurd hf (by decide)
    simp [checkFormatFeatures, ImageUsage.none, hne, hf]
  · have hne : featuresFor device format lt ≠ FormatFeatures.default := by
      intro he; rw [he] at hf; exact absurd hf (by decide)
    simp [checkFormatFeatures, ImageUsage.none, hne, hf]
  · have hne : featuresFor device format lt ≠ FormatFeatures.default := by
      intro he; rw [he] at hf; exact absurd hf (by decide)
    simp [checkFormatFeatures, ImageUsage.none, hne, hf]
  · have hne : featuresFor device format lt ≠ FormatFeatures.default := by
      intro he; rw [he] at hf; exact absurd hf (by decide)
    simp [checkFormatFeatures, ImageUsage.none, hne, hf]
  · have hne : featuresFor device format lt ≠ FormatFeatures.default := by
      rcases hf with hf | hf <;>
        (intro he; rw [he] at hf; exact absurd hf (by decide))
    simp [checkFormatFeatures, ImageUsage.none, hne, hf]
  · have hne : featuresFor device format lt ≠ FormatFeatures.default := by
      intro he; rw [he] at hf; exact absurd hf (by decide)
    simp [checkFormatFeatures, ImageUsage.none, hne, hf]
  · have hne : featuresFor device format lt ≠ FormatFeatures.default := by
      intro he; rw [he] at hf; exact absurd hf (by decide)
    simp [checkFormatFeatures, ImageUsage.none, hne, hf]

/-- Claim C7: for every descriptor whose usage is a single bit — sampled,
storage, color-attachment, depth-stencil-attachment, input-attachment,
transfer-source or transfer-destination — with the corresponding format
feature present for the format/tiling pair (sampled-image, storage-image,
color-attachment, depth-stencil-attachment, color-or-depth-stencil,
transfer-src, transfer-dst respectively), and which passes the remaining
validation (mip resolution and sample check with no deferred error, the
storage-multisample gate, nonzero dimensions within the device limits, the
creation-flag requirements), creation succeeds — given a driver whose create
call returns a handle — and the returned handle reports back exactly the
supplied format, flags, dimensions, sample count, usage, resolved mip count
and preinitialized flag. -/
theorem creation_reports_supplied_values
    (device : Device) (env : DriverEnv) (usage : ImageUsage) (format : Format)
    (flags : ImageCreateFlags) (dims : ImageDimensions) (num_samples : Nat)
    (mips : MipmapsCount) (sh_mode : Nat) (sh_indices : List Nat)
    (lt pre : Bool) (mipmapsN : Nat) (ty : ImageType) (extent : Extent3D)
    (array_layers : Nat) (image : Nat)
    (husage :
      (usage = { ImageUsage.none with sampled := true } ∧
        (featuresFor device format lt).sampled_image = true) ∨
      (usage = { ImageUsage.none with storage := true } ∧
        (featuresFor device format lt).storage_image = true) ∨
      (usage = { ImageUsage.none with color_attachment := true } ∧
        (featuresFor device format lt).color_attachment = true) ∨
      (usage = { ImageUsage.none with depth_stencil_attachment := true } ∧
        (featuresFor device format lt).depth_stencil_attachment = true) ∨
      (usage = { ImageUsage.none with input_attachment := true } ∧
        ((featuresFor device format lt).color_attachment = true ∨
         (featuresFor device format lt).depth_stencil_attachment = true)) ∨
      (usage = { ImageUsage.none with transfer_source := true } ∧
        (featuresFor device format lt).transfer_src = true) ∨
      (usage = { ImageUsage.none with transfer_destination := true } ∧
        (featuresFor device format lt).transfer_dst = true))
    (h0 : ¬(flags.sparse_binding ∨ flags.sparse_residency ∨
      flags.sparse_aliased ∨ flags.mutable_format))
    (hm : resolveMipmaps false dims mips = Step.ok (mipmapsN, Option.none))
    (hs : checkSamples device usage format num_samples = Step.ok Option.none)
    (h6 : ¬(usage.storage ∧ num_samples > 1 ∧
      ¬device.enabled_features.shader_storage_image_multisample))
    (hdec : decodeDimensions dims = Step.ok (ty, extent, array_layers))
    (hfl : checkFlagsRequirements flags ty extent array_layers = Step.ok ())
    (hlim : checkLimits device flags dims ty extent array_layers = Option.none)
    (hc : env.create_image (mkImageCreateInfo usage format flags num_samples
      mipmapsN sh_mode sh_indices lt pre ty extent array_layers) =
      .success image) :
    ∃ img reqs,
      new_impl device env false usage format flags dims num_samples mips
          sh_mode sh_indices lt pre = Step.ok (img, reqs) ∧
      img.format = format ∧
      img.create_flags = flags ∧
      img.flags = flags ∧
      img.dimensions = dims ∧
      img.samples = num_samples ∧
      img.usage = usage ∧
      img.mipmap_levels = mipmapsN ∧
      img.preinit_layout = pre := by
  have hff : checkFormatFeatures device usage format lt =
      Step.ok (featuresFor device format lt) := by
    rcases husage with ⟨h, hf⟩ | ⟨h, hf⟩ | ⟨h, hf⟩ | ⟨h, hf⟩ | ⟨h, hf⟩ |
      ⟨h, hf⟩ | ⟨h, hf⟩ <;> subst h
    · exact (checkFormatFeatures_single_bit device format lt).1 hf
    · exact (checkFormatFeatures_single_bit device format lt).2.1 hf
    · exact (checkFormatFeatures_single_bit device format lt).2.2.1 hf
    · exact (checkFormatFeatures_single_bit device format lt).2.2.2.1 hf
    · exact (checkFormatFeatures_single_bit device format lt).2.2.2.2.1 hf
    · exact (checkFormatFeatures_single_bit device format lt).2.2.2.2.2.1 hf
    · exact (checkFormatFeatures_single_bit device format lt).2.2.2.2.2.2 hf
  have hnone : usage ≠ ImageUsage.none := by
    rcases husage with ⟨h, _⟩ | ⟨h, _⟩ | ⟨h, _⟩ | ⟨h, _⟩ | ⟨h, _⟩ | ⟨h, _⟩ |
      ⟨h, _⟩ <;> subst h <;> decide
  have htr : ¬(usage.transient_attachment ∧
      ¬({ usage with
          transient_attachment := false
          color_attachment := false
          depth_stencil_attachment := false
          input_attachment := false } = ImageUsage.none)) := by
    rcases husage with ⟨h, _⟩ | ⟨h, _⟩ | ⟨h, _⟩ | ⟨h, _⟩ | ⟨h, _⟩ | ⟨h, _⟩ |
      ⟨h, _⟩ <;> subst h <;> decide
  obtain ⟨m, hmem⟩ := computeMemReqs_no_assert device env image
  refine ⟨{ image := image
            device := device
            usage := usage
            format := format
            flags := flags
            dimensions := dims
            samples := num_samples
            mipmaps := mipmapsN
            format_features := featuresFor device format lt
            needs_destruction := true
            preinit_layout := pre }, m, ?_, rfl, rfl, rfl, rfl, rfl, rfl, rfl,
    rfl⟩
  unfold new_impl
  rw [if_neg h0, hff]
  simp only [Step.bind_ok]
  rw [if_neg hnone, if_neg htr, hm]
  simp only [Step.bind_ok]
  rw [hs]
  simp only [Step.bind_ok]
  rw [if_neg h6, hdec]
  simp only [Step.bind_ok]
  rw [hfl]
  simp only [Step.bind_ok, hlim]
  simp only [Option.orElse]
  simp only [finishCreation, createImageCall]
  rw [hc]
  dsimp only
  simp only [Step.bind_ok]
  rw [hmem]
  simp only [Step.bind_ok]

/-- Witness for claim C7: the source's `create_sampled` test input — a
single-bit sampled usage on a fully featured format, 32 by 32, one sample, one
mip level — creates successfully and the handle reports back the supplied
values; likewise a single-bit transfer-source usage on a device with
`khr_maintenance1` loaded, whose transfer-src feature check is active. -/
theorem creation_reports_supplied_values_witness :
    (∃ img reqs,
      new_impl deviceA envA false usageSampled fmtRGBA ImageCreateFlags.none
          dims32 1 (.specific 1) 0 [] false false = Step.ok (img, reqs) ∧
      img.format = fmtRGBA ∧
      img.create_flags = ImageCreateFlags.none ∧
      img.flags = ImageCreateFlags.none ∧
      img.dimensions = dims32 ∧
      img.samples = 1 ∧
      img.usage = usageSampled ∧
      img.mipmap_levels = 1 ∧
      img.preinit_layout = false) ∧
    (∃ img reqs,
      new_impl deviceM1 envA false
          { ImageUsage.none with transfer_source := true } fmtRGBA
          ImageCreateFlags.none dims32 1 (.specific 1) 0 [] false false =
        Step.ok (img, reqs) ∧
      img.format = fmtRGBA ∧
      img.create_flags = ImageCreateFlags.none ∧
      img.flags = ImageCreateFlags.none ∧
      img.dimensions = dims32 ∧
      img.samples = 1 ∧
      img.usage = { ImageUsage.none with transfer_source := true } ∧
      img.mipmap_levels = 1 ∧
      img.preinit_layout = false) := by
  constructor
  · exact creation_reports_supplied_values deviceA envA usageSampled fmtRGBA
      ImageCreateFlags.none dims32 1 (.specific 1) 0 [] false false 1 .ty2d
      ⟨32, 32, 1⟩ 1 42 (Or.inl ⟨by decide, by decide⟩) (by decide) rfl rfl
      (by decide) rfl rfl rfl rfl
  · exact creation_reports_supplied_values deviceM1 envA
      { ImageUsage.none with transfer_source := true } fmtRGBA
      ImageCreateFlags.none dims32 1 (.specific 1) 0 [] false false 1 .ty2d
      ⟨32, 32, 1⟩ 1 42
      (Or.inr (Or.inr (Or.inr (Or.inr (Or.inr (Or.inl
        ⟨by decide, by decide⟩))))))
      (by decide) rfl rfl (by decide) rfl rfl rfl rfl

/-- Claim C8: the memory requirements computed at creation use the extended
query path exactly when `khr_get_memory_requirements2` is loaded — otherwise
the basic query is used and the prefer-dedicated hint is false; with the
extended path but without `khr_dedicated_allocation` the hint is likewise
false; with both extensions the hint equals the driver's prefers-dedicated
value; the driver's requires-dedicated signal is asserted, in checked builds
only, to be zero (a nonzero value panics), and with assertions off the result
never depends on it (it is not exposed). -/
theorem memory_requirements_resolution :
    (∀ (device : Device) (env : DriverEnv) (dbg : Bool) (image : Nat),
      device.loaded_extensions.khr_get_memory_requirements2 = false →
      (env.get_image_memory_requirements image).memoryTypeBits ≠ 0 →
      computeMemReqs device env dbg image =
        Step.ok (MemoryRequirements.from_vulkan_reqs
          (env.get_image_memory_requirements image)) ∧
      (MemoryRequirements.from_vulkan_reqs
        (env.get_image_memory_requirements image)).prefer_dedicated = false) ∧
    (∀ (device : Device) (env : DriverEnv) (dbg : Bool) (image : Nat),
      device.loaded_extensions.khr_get_memory_requirements2 = true →
      device.loaded_extensions.khr_dedicated_allocation = false →
      (env.get_image_memory_requirements2 image).memoryTypeBits ≠ 0 →
      computeMemReqs device env dbg image =
        Step.ok (MemoryRequirements.from_vulkan_reqs
          (env.get_image_memory_requirements2 image))) ∧
    (∀ (device : Device) (env : DriverEnv) (dbg : Bool) (image : Nat),
      device.loaded_extensions.khr_get_memory_requirements2 = true →
      device.loaded_extensions.khr_dedicated_allocation = true →
      (env.get_image_memory_requirements2 image).memoryTypeBits ≠ 0 →
      (env.get_memory_dedicated_requirements
        image).requiresDedicatedAllocation = 0 →
      computeMemReqs device env dbg image =
        Step.ok { MemoryRequirements.from_vulkan_reqs
            (env.get_image_memory_requirements2 image) with
          prefer_dedicated := (env.get_memory_dedicated_requirements
            image).prefersDedicatedAllocation != 0 }) ∧
    (∀ (device : Device) (env : DriverEnv) (image : Nat),
      device.loaded_extensions.khr_get_memory_requirements2 = true →
      device.loaded_extensions.khr_dedicated_allocation = true →
      (env.get_image_memory_requirements2 image).memoryTypeBits ≠ 0 →
      (env.get_memory_dedicated_requirements
        image).requiresDedicatedAllocation ≠ 0 →
      computeMemReqs device env true image = Step.panicked) ∧
    (∀ (device : Device) (env : DriverEnv) (image : Nat) (r2 : Nat),
      computeMemReqs device env false image =
        computeMemReqs device
          { env with get_memory_dedicated_requirements := fun i =>
              ⟨(env.get_memory_dedicated_requirements
                i).prefersDedicatedAllocation, r2⟩ }
          false image) := by
  refine ⟨?_, ?_, ?_, ?_, ?_⟩
  · intro device env dbg image hext hb
    refine ⟨?_, rfl⟩
    simp [computeMemReqs, hext, hb]
  · intro device env dbg image hext hded hb
    simp [computeMemReqs, hext, hded, hb]
  · intro device env dbg image hext hded hb hreq
    simp [computeMemReqs, hext, hded, hb, hreq]
  · intro device env image hext hded hb hreq
    simp [computeMemReqs, hext, hded, hb, hreq]
  · intro device env image r2
    simp only [computeMemReqs, Bool.false_eq_true, false_and, if_false]
    split_ifs <;> rfl

/-- Witness for claim C8: with both extensions loaded and a driver preferring
dedicated allocation (and not requiring it), the hint is propagated; without
the extensions the basic 1024/256/7 answer is returned with a false hint; with
assertions on and a nonzero requires-dedicated value the checked build panics. -/
theorem memory_requirements_resolution_witness :
    computeMemReqs deviceA envA false 42 =
      Step.ok ⟨1024, 256, 7, false⟩ ∧
    computeMemReqs deviceExt envPrefDedicated false 42 =
      Step.ok ⟨1024, 256, 7, true⟩ ∧
    computeMemReqs deviceExt
      { envA with get_memory_dedicated_requirements := fun _ => ⟨0, 1⟩ }
      true 42 = Step.panicked := by
  refine ⟨?_, ?_, ?_⟩
  · exact ((memory_requirements_resolution.1 deviceA envA false 42 rfl
      (by decide)).1)
  · exact memory_requirements_resolution.2.2.1 deviceExt envPrefDedicated
      false 42 rfl rfl (by decide) rfl
  · exact memory_requirements_resolution.2.2.2.1 deviceExt
      { envA with get_memory_dedicated_requirements := fun _ => ⟨0, 1⟩ } 42
      rfl rfl (by decide) (by decide)
